import Mathlib

/-!
# Verification of the telegram-controller control plane

A shallow embedding, in Lean 4, of the control logic of
`scripts/autonomy/telegram-controller.py`: the command dispatcher, the
approval ledger, the consensus voter, the blocker classifier, the
emergency-stop latch and the watchdog deduplication engine.

Modelling conventions:
* Python strings are Lean `String`s; character-level Python operations
  (`str.split`, `str.strip`, `str.lower`, regex searches over the fixed
  patterns appearing in the source) are implemented on `List Char`.
* The filesystem state directory is a `World` record: the approval files,
  the emergency-stop document, the watchdog document and the consensus
  artifacts are fields of `World`; every Python read/write of those files
  becomes a functional read/update of `World`.
* External subprocess invocations are modelled by an oracle queue
  `World.exec`: each `subprocess.run` consumes the next queued outcome
  (exit code, combined output and - for per-agent prompt calls - the
  value that `find_json_object` extracts from that output).  JSON
  extraction from free-form model replies is part of this external-input
  boundary.
* Outbound chat messages are recorded as structured `Msg` values, one
  constructor per `send_message` call site of the source, carrying the
  dynamic data interpolated into the message text.
* Timestamps are naturals (`World.now`); SHA-1 fingerprints of watchdog
  outputs are modelled by the (injective) normalized text itself, so that
  fingerprint equality coincides with equality of normalized outputs.
-/

/-! ## Python character and string primitives -/

/-- Whitespace characters recognised by Python `str.split()` / `str.strip()`
(`\s` for the came patterns): space, tab, newline, carriage return,
vertical tab and form feed. -/
def isPyWs (c : Char) : Bool :=
  c = ' ' || c = '\t' || c = '\n' || c = '\r' || c = Char.ofNat 11 || c = Char.ofNat 12

/-- ASCII lowercasing of one character (Python `str.lower` on the ASCII
fragment used by the controller). -/
def pyLowerChar (c : Char) : Char := c.toLower

/-- Python `str.lower()`. -/
def pyLower (s : String) : String := ⟨s.toList.map pyLowerChar⟩

/-- Python `str.strip()` on a character list. -/
def pyStripChars (cs : List Char) : List Char :=
  ((cs.dropWhile isPyWs).reverse.dropWhile isPyWs).reverse

/-- Python `str.strip()`. -/
def pyStrip (s : String) : String := ⟨pyStripChars s.toList⟩

/-- Python `str.split()` without separator (fuel-indexed worker; each step
consumes at least one character, so fuel `cs.length` is exact). -/
def pyWordsCharsAux : Nat → List Char → List (List Char)
  | 0, _ => []
  | _, [] => []
  | Nat.succ fuel, c :: rest =>
    if isPyWs c then pyWordsCharsAux fuel rest
    else
      let tok := (c :: rest).takeWhile (fun x => !isPyWs x)
      tok :: pyWordsCharsAux fuel ((c :: rest).drop tok.length)

/-- Python `str.split()` without separator: maximal runs of
non-whitespace characters. -/
def pyWordsChars (cs : List Char) : List (List Char) :=
  pyWordsCharsAux cs.length cs

/-- Python `text.split()`. -/
def pyWords (s : String) : List String := (pyWordsChars s.toList).map List.asString

/-- Python `text.split(None, n)` (fuel-indexed worker): at most `n` splits;
the final element keeps the remaining text verbatim (after the delimiter
run that follows the last completed token). -/
def pySplitNCharsAux : Nat → Nat → List Char → List (List Char)
  | 0, _, _ => []
  | Nat.succ fuel, maxsplit, cs =>
    match cs.dropWhile isPyWs with
    | [] => []
    | c :: rest =>
      match maxsplit with
      | 0 => [c :: rest]
      | Nat.succ m =>
        let tok := (c :: rest).takeWhile (fun x => !isPyWs x)
        tok :: pySplitNCharsAux fuel m ((c :: rest).drop tok.length)

/-- Python `text.split(None, n)` on strings. -/
def pySplitN (s : String) (maxsplit : Nat) : List String :=
  (pySplitNCharsAux (s.toList.length + 1) maxsplit s.toList).map List.asString

/-- Substring occurrence on character lists (structural scan). -/
def containsSubChars (p : List Char) : List Char → Bool
  | [] => p.isPrefixOf []
  | c :: rest => p.isPrefixOf (c :: rest) || containsSubChars p rest

/-- Substring test (`p in t` for a nonempty needle `p`). -/
def containsSub (t p : String) : Bool := containsSubChars p.toList t.toList

/-- Python `str.splitlines()` (fuel-indexed worker) restricted to the `\n`,
`\r\n` and `\r` terminators (the only ones arising in controller outputs). -/
def pySplitLinesCharsAux : Nat → List Char → List (List Char)
  | 0, _ => []
  | _, [] => []
  | Nat.succ fuel, c :: cs =>
    let line := (c :: cs).takeWhile (fun x => x ≠ '\n' && x ≠ '\r')
    let rest := (c :: cs).drop line.length
    let rest2 :=
      match rest with
      | '\r' :: '\n' :: tl => tl
      | _ :: tl => tl
      | [] => []
    line :: pySplitLinesCharsAux fuel rest2

/-- Python `str.splitlines()` on strings. -/
def pySplitLines (s : String) : List String :=
  (pySplitLinesCharsAux s.toList.length s.toList).map List.asString

/-- `re.sub(r"\s+", " ", ·)` (fuel-indexed worker): collapse each maximal
whitespace run to a single space. -/
def collapseWsCharsAux : Nat → List Char → List Char
  | 0, _ => []
  | _, [] => []
  | Nat.succ fuel, c :: rest =>
    if isPyWs c then ' ' :: collapseWsCharsAux fuel (rest.dropWhile isPyWs)
    else c :: collapseWsCharsAux fuel rest

/-- Whitespace collapsing on strings. -/
def collapseWs (s : String) : String := ⟨collapseWsCharsAux s.toList.length s.toList⟩

/-- Python string slice `s[:n]` (character based). -/
def pyTake (s : String) (n : Nat) : String := ⟨s.toList.take n⟩

/-! ## Command parsing (`parse_command`, `command_key`) -/

/-- `parse_command`: split the text on whitespace; the command is the first
token with anything after `@` stripped and lowercased; the remaining tokens
are the arguments. -/
def parse_command (text : String) : String × List String :=
  match pyWords (pyStrip text) with
  | [] => ("", [])
  | p0 :: rest =>
    let cmd := pyLower ⟨p0.toList.takeWhile (· ≠ '@')⟩
    (cmd, rest)

/-- `command_key`: strip leading slashes, surrounding whitespace, lowercase. -/
def command_key (cmd : String) : String :=
  pyLower (pyStrip ⟨cmd.toList.dropWhile (· = '/')⟩)

/-! ## Blocker classifier (`detect_human_blocker`) -/

/-- One alternative of a blocker regex: either a literal substring, or a
`A.*B` pattern (`A` then `B` later on the same line, `.` not matching
newline). -/
inductive Pat where
  | lit : String → Pat
  | seqDot : String → String → Pat
deriving DecidableEq, Repr

/-- `A.*B` on character lists: `A` occurs and `B` occurs after the first
occurrence of `A` (if `B` follows a later occurrence it also follows the
first, so only the first needs checking). -/
def seqDotChars (a b : List Char) : List Char → Bool
  | [] => false
  | c :: rest =>
    if a.isPrefixOf (c :: rest) then containsSubChars b ((c :: rest).drop a.length)
    else seqDotChars a b rest

/-- Does `A.*B` match somewhere in line `l`? -/
def seqDotLine (a b l : String) : Bool := seqDotChars a.toList b.toList l.toList

/-- Match one pattern alternative against the (already lowercased) text. -/
def patMatch (t : String) : Pat → Bool
  | .lit s => containsSub t s
  | .seqDot a b => (pySplitLines t).any (fun l => seqDotLine a b l)

/-- The ordered regex → tag table of `detect_human_blocker`, with each
`re`-alternation expanded into its alternatives. -/
def blockerPatterns : List (List Pat × String) :=
  [ ([Pat.lit "invalid username or token", Pat.lit "authentication failed",
      Pat.lit "incorrect api key", Pat.lit "invalid api key",
      Pat.lit "invalid x-api-key"], "credentials_invalid"),
    ([Pat.lit "permission denied", Pat.lit "forbidden",
      Pat.lit "insufficient permission", Pat.seqDot "requires " " permission",
      Pat.lit "permissions.push=false"], "permission_denied"),
    ([Pat.lit "rate limit", Pat.lit "too many requests",
      Pat.lit "retry_after", Pat.lit "429"], "rate_limited"),
    ([Pat.lit "insufficient_quota", Pat.lit "quota exceeded",
      Pat.lit "exceeded your current quota", Pat.lit "billing hard limit",
      Pat.lit "out of credits", Pat.lit "credit balance is too low",
      Pat.lit "payment required", Pat.lit "402"], "provider_quota_exhausted"),
    ([Pat.lit "context length", Pat.lit "maximum context length",
      Pat.lit "token limit exceeded"], "provider_token_limit"),
    ([Pat.lit "model overloaded", Pat.lit "server is overloaded",
      Pat.lit "service unavailable", Pat.lit "503"], "provider_unavailable"),
    ([Pat.lit "not found (likely token lacks merge permission"], "merge_permission_missing"),
    ([Pat.lit "must register", Pat.lit "claim", Pat.lit "verify-email",
      Pat.seqDot "owner" "email", Pat.lit "pending_claim"], "ownership_verification_required"),
    ([Pat.lit "telegram_bot_token is required", Pat.lit "telegra_bot_token is required",
      Pat.lit "telegram_allowed_chat_ids is required",
      Pat.seqDot "missing " " required"], "missing_required_config") ]

/-- `detect_human_blocker`: lowercase the text, scan the ordered pattern
table; the first matching pattern yields its tag. -/
def detect_human_blocker (text : String) : Option String :=
  let t := pyLower text
  (blockerPatterns.find? (fun pr => pr.1.any (fun p => patMatch t p))).map Prod.snd

/-! ## Agent human-request marker extraction
(`extract_agent_human_request_reason`) -/

/-- Capture group of `\s*[:\-]?\s*(.+)` after a marker (with the regex
backtracking semantics of the leftmost-greedy match): skip whitespace, then
optionally one `:` or `-`, then whitespace, then at least one character. -/
def optCapture (r : List Char) : Option (List Char) :=
  let r1 := r.dropWhile isPyWs
  match r1 with
  | [] => none
  | c :: r2 =>
    if c = ':' || c = '-' then
      let r3 := r2.dropWhile isPyWs
      if r3 ≠ [] then some r3
      else
        match r2.getLast? with
        | some ch => some [ch]
        | none => some r1
    else some r1

/-- Capture group of `\s*[:\-]\s*(.+)` after a marker (separator
mandatory). -/
def mandCapture (r : List Char) : Option (List Char) :=
  let r1 := r.dropWhile isPyWs
  match r1 with
  | [] => none
  | c :: r2 =>
    if c = ':' || c = '-' then
      let r3 := r2.dropWhile isPyWs
      if r3 ≠ [] then some r3
      else
        match r2.getLast? with
        | some ch => some [ch]
        | none => none
    else none

/-- Is the lowercase `marker` a case-insensitive prefix of `cs`? -/
def ciPrefix (marker cs : List Char) : Bool :=
  marker.isPrefixOf (cs.take marker.length |>.map pyLowerChar)

/-- `re.search` for `marker` followed by the capture expression, scanning
left to right (case-insensitive on the marker). -/
def searchMarker (marker : List Char) (cap : List Char → Option (List Char)) :
    List Char → Option (List Char)
  | [] => none
  | c :: rest =>
    if ciPrefix marker (c :: rest) then
      match cap ((c :: rest).drop marker.length) with
      | some g => some g
      | none => searchMarker marker cap rest
    else searchMarker marker cap rest

/-- The four marker patterns of `extract_agent_human_request_reason`, in
source order: bracketed markers with optional separator, then bare markers
with mandatory separator. -/
def humanMarkerPatterns : List (List Char × (List Char → Option (List Char))) :=
  [ ("[human_request]".toList, optCapture),
    ("[human_approval]".toList, optCapture),
    ("human_request".toList, mandCapture),
    ("human_approval".toList, mandCapture) ]

/-- `extract_agent_human_request_reason`: scan each (stripped, nonempty)
line for the first matching marker pattern; strip the capture, substitute
the default reason when it strips to nothing, truncate to 280 chars. -/
def extract_agent_human_request_reason (text : String) : Option String :=
  if text = "" then none
  else
    let step (line : String) : Option String :=
      let l := pyStrip line
      if l = "" then none
      else
        (humanMarkerPatterns.findSome? (fun pr => searchMarker pr.1 pr.2 l.toList)).map
          (fun g =>
            let reason := pyStrip ⟨g⟩
            let reason := if reason = "" then "agent_consensus_requested_human_input" else reason
            pyTake reason 280)
    (pySplitLines text).findSome? step

/-! ## Configuration (environment variables, resolved at startup) -/

/-- The configuration block read from environment variables at startup.
Set-valued variables are lists of lowercase keys. -/
structure Config where
  allowedChatIds : List String
  enableE2EMerge : Bool
  leaderOnlyMode : Bool
  minimalCommandMode : Bool
  requireApprovalCommands : List String
  autoRequestOnBlocker : Bool
  pauseDevWhenPending : Bool
  autoPlanReviewOnPending : Bool
  planReviewRepo : String
  agentConsensusRequired : Bool
  agentConsensusMin : Nat
  watchdogEnabled : Bool
  watchdogTimeoutSeconds : Nat
  watchdogAlertCooldownSeconds : Nat
  watchdogPrompt : String
  watchdogCheckMoltbook : Bool
  leaderAgent : String
  commandTimeoutSeconds : Nat
deriving DecidableEq, Repr

/-- The four agents (`AGENTS`). -/
def AGENTS : List String := ["gpt", "claude", "gemini", "grok"]

/-- `SERVICE_BY_AGENT`. -/
def SERVICE_BY_AGENT (agent : String) : String :=
  if agent = "gpt" then "openclaw-gpt"
  else if agent = "claude" then "openclaw-claude"
  else if agent = "gemini" then "openclaw-gemini"
  else if agent = "grok" then "openclaw-grok"
  else ""

/-- `DEV_BLOCK_COMMAND_KEYS`. -/
def DEV_BLOCK_COMMAND_KEYS : List String := ["commit", "pr", "e2e", "e2e_merge"]

/-- `STOP_COMMANDS`. -/
def STOP_COMMANDS : List String := ["/stop", "/emergency_stop", "/panic"]

/-- `RESUME_COMMANDS`. -/
def RESUME_COMMANDS : List String := ["/resume", "/continue"]

/-- `MINIMAL_ALLOWED_COMMANDS`. -/
def MINIMAL_ALLOWED_COMMANDS : List String :=
  ["/help", "/start", "/pending", "/approve", "/reject", "/status",
   "/stop", "/emergency_stop", "/panic", "/resume", "/continue"]

/-- `ALLOWED_WHEN_STOPPED` (note: `/approve` is absent). -/
def ALLOWED_WHEN_STOPPED : List String :=
  ["/help", "/start", "/pending", "/reject", "/status",
   "/stop", "/emergency_stop", "/panic", "/resume", "/continue"]

/-- `requires_approval`. -/
def requires_approval (cfg : Config) (cmd : String) : Bool :=
  (command_key cmd) ∈ cfg.requireApprovalCommands

/-- The default configuration (all environment variables unset). -/
def defaultConfig (chats : List String) : Config where
  allowedChatIds := chats
  enableE2EMerge := false
  leaderOnlyMode := true
  minimalCommandMode := true
  requireApprovalCommands := ["pr", "e2e_merge"]
  autoRequestOnBlocker := true
  pauseDevWhenPending := true
  autoPlanReviewOnPending := true
  planReviewRepo := "workdirs/gpt"
  agentConsensusRequired := true
  agentConsensusMin := 3
  watchdogEnabled := true
  watchdogTimeoutSeconds := 240
  watchdogAlertCooldownSeconds := 600
  watchdogPrompt := "한 문장으로 hello"
  watchdogCheckMoltbook := true
  leaderAgent := "gemini"
  commandTimeoutSeconds := 900

/-! ## Persistent state documents -/

/-- The emergency-stop singleton (`emergency-stop.json`). -/
structure ControlState where
  emergency_stop : Bool
  updated_at : Option Nat
  updated_by_chat_id : Option String
  reason : Option String
  resume_reason : Option String
deriving DecidableEq, Repr

/-- The watchdog singleton (`telegram-watchdog.json`). -/
structure WdState where
  alert_active : Bool
  last_alert_at : Nat
  last_failure_hash : String
  last_ok_at : Option Nat
  last_seen_at : Option Nat
  last_reason : Option String
deriving DecidableEq, Repr

/-- An approval-request document (`telegram-approvals/req_*.json`).  `seq` is
the numeric creation index embedded in the id; filenames sort by it. -/
structure Approval where
  seq : Nat
  id : String
  status : String
  created_at : Nat
  chat_id : String
  command_text : String
  reason : Option String
  note : Option String
  agent_request_reason : Option String
  consensus_required : Option Bool
  consensus_min : Option Nat
  consensus_yes : Option Nat
  consensus_run_id : Option String
  consensus_artifact : Option String
  error_agents : Option (List String)
  watchdog_failure_hash : Option String
  watchdog_excerpt : Option String
  resolved_at : Option Nat
  resolved_by_chat_id : Option String
  plan_review_triggered : Bool
  plan_review_triggered_at : Option Nat
  plan_review_exit_code : Option Int
  plan_review_output_preview : Option String
deriving DecidableEq, Repr

/-- The fresh approval payload written by `create_approval`. -/
def mkApproval (seq : Nat) (now : Nat) (chat_id text : String) : Approval where
  seq := seq
  id := "req_" ++ toString seq
  status := "pending"
  created_at := now
  chat_id := chat_id
  command_text := text
  reason := none
  note := none
  agent_request_reason := none
  consensus_required := none
  consensus_min := none
  consensus_yes := none
  consensus_run_id := none
  consensus_artifact := none
  error_agents := none
  watchdog_failure_hash := none
  watchdog_excerpt := none
  resolved_at := none
  resolved_by_chat_id := none
  plan_review_triggered := false
  plan_review_triggered_at := none
  plan_review_exit_code := none
  plan_review_output_preview := none

/-- What `find_json_object` + the subsequent `parsed.get(...)` coercions
deliver for one agent vote: the `decision` string, the truthiness of
`requires_human`, the integer `confidence` and the `reason` string. -/
structure VoteJson where
  decision : String
  requires_human : Bool
  confidence : Int
  reason : String
deriving DecidableEq, Repr

/-- One external subprocess outcome supplied by the environment: exit code,
combined stdout+stderr, and - for per-agent prompt calls - the JSON object
`find_json_object` extracts from the output (`none` when no JSON object is
found). -/
structure ExtRes where
  code : Int
  out : String
  json : Option VoteJson
deriving DecidableEq, Repr

/-- Default outcome when the oracle queue is exhausted (an empty, silent,
successful process). -/
def dfltExtRes : ExtRes := ⟨0, "", none⟩

/-- One recorded vote (the per-agent dict of `run_agent_consensus`;
`yes = none` mirrors the absent `"yes"` key of error votes). -/
structure Vote where
  agent : String
  ok : Bool
  raw : String
  decision : String
  requires_human : Bool
  confidence : Int
  reason : String
  yes : Option Bool
deriving DecidableEq, Repr

/-- A consensus artifact (`consensus/consensus_*.json`). -/
structure Consensus where
  run_id : String
  created_at : Nat
  reason_detail : String
  command_text : String
  consensus_min : Nat
  yes_count : Nat
  passed : Bool
  error_agents : List String
  votes : List Vote
  artifact : String
deriving DecidableEq, Repr

/-- A recorded `run_cmd` invocation.  Consensus prompts are recorded
structurally (agent, service and the data interpolated into the fixed
prompt template) rather than as the rendered prompt string. -/
inductive RunSpec where
  | script : List String → Option Nat → RunSpec
  | consensusPrompt : String → String → String → String → String → RunSpec
deriving DecidableEq, Repr

/-- Outbound chat messages, one constructor per `send_message` call site of
the source, carrying the data interpolated into the text. -/
inductive Msg where
  | helpText
  | emergencyActivated : Option String → Msg
  | emergencyCleared : Option String → Msg
  | minimalModeDisabled
  | stoppedGuidance
  | planReviewRunning
  | noPending
  | pendingList : List (String × Nat × String) → Msg
  | usageReject
  | usageApprove
  | approveBlockedStopped
  | requestNotFound : String → Msg
  | unauthorized
  | alreadyResolved : String → String → Msg
  | rejectedOk : String → Msg
  | approvedExecuting : String → String → Msg
  | approvalRequired : String → String → Msg
  | devPaused : String → String → Msg
  | runningHealthCheck
  | cmdResult : String → Bool → String → Msg
  | usageAskLeader
  | leaderOnlyAsk
  | usageAsk
  | unknownAgent : String → Msg
  | queryingAgent : String → Msg
  | usageCommitLeader
  | usageCommit
  | invalidTaskFile : String → Msg
  | runningCommit : String → Msg
  | leaderOnlyCommit
  | usagePr
  | leaderOnlyPr
  | creatingPr : String → String → Msg
  | unknownAgents : List String → Msg
  | noAgents
  | e2eMergeDisabled
  | runningE2E : Bool → Msg
  | unknownCommand
  | devPausedPlanReview : String → Msg
  | planReviewResult : String → Bool → String → Msg
  | consensusRunning : Nat → Msg
  | consensusUnavailable : String → String → List String → Nat → String → Msg
  | consensusRejectedNote : String → Nat → Nat → String → Msg
  | consensusRequested : String → String → String → Msg
  | blockerIntervention : String → String → String → Msg
  | watchdogRecovered
  | watchdogIntervention : String → String → String → Msg
deriving DecidableEq, Repr

/-- The whole observable world: configuration, the on-disk state documents,
the outbound message log, the subprocess invocation log, the oracle queue
of subprocess outcomes, the id counters and the clock.  `fsTasks` models the
filesystem view of `safe_rel_path`: the association of raw task-file
arguments to resolved in-repo paths of existing files. -/
structure World where
  cfg : Config
  approvals : List Approval
  fsTasks : List (String × String)
  control : ControlState
  watchdog : WdState
  consensusRuns : List Consensus
  msgs : List (String × Msg)
  ran : List RunSpec
  exec : List ExtRes
  nextId : Nat
  nextRun : Nat
  now : Nat
deriving DecidableEq, Repr

/-! ## Command runner (`run_cmd`) -/

/-- Semantics of one child process as the environment determines it: how
long it would run, and what it would produce on completion. -/
structure ProcRun where
  duration : Nat
  returncode : Int
  stdout : String
  stderr : String
deriving DecidableEq, Repr

/-- The exceptions `subprocess.run` may raise under this model. -/
inductive SubprocessError where
  | timeoutExpired
deriving DecidableEq, Repr

/-- `subprocess.run(args, timeout=t, capture_output=True)`: completes with
its code and captured streams when it finishes within `t` seconds, raises
`TimeoutExpired` otherwise. -/
def subprocessRun (p : ProcRun) (timeout : Nat) :
    Except SubprocessError (Int × String × String) :=
  if p.duration > timeout then Except.error SubprocessError.timeoutExpired
  else Except.ok (p.returncode, p.stdout, p.stderr)

/-- Output post-processing of `run_cmd`: concatenate, strip, truncate at
15000 characters with the explicit marker. -/
def runCmdCombine (stdout stderr : String) : String :=
  let out := pyStrip (stdout ++ stderr)
  if out.toList.length > 15000 then pyTake out 15000 ++ "\n...[truncated]" else out

/-- `run_cmd`: invoke `subprocess.run` and post-process.  The source wraps
the call in no `try`/`except`, so a `TimeoutExpired` propagates to the
caller unchanged. -/
def runCmd (p : ProcRun) (timeout : Nat) : Except SubprocessError (Int × String) :=
  match subprocessRun p timeout with
  | Except.error e => Except.error e
  | Except.ok (rc, so, se) => Except.ok (rc, runCmdCombine so se)

/-! ## World-level state-store and effect primitives

Inside the dispatcher every subprocess outcome is supplied by the oracle
queue `World.exec` (the already-completed view: the claims settled on this
model concern dispatch logic, not the timeout path, which is settled on
`run_cmd` above). -/

/-- Append one outbound chat message. -/
def send (W : World) (chat : String) (m : Msg) : World :=
  { W with msgs := W.msgs ++ [(chat, m)] }

/-- Pop the next subprocess outcome from the oracle queue. -/
def popExec (W : World) : ExtRes × World :=
  match W.exec with
  | [] => (dfltExtRes, W)
  | e :: rest => (e, { W with exec := rest })

/-- World-level `run_cmd` for a script invocation: consume one oracle
outcome, record the invocation, post-process the combined output. -/
def runScript (W : World) (args : List String) (timeout : Option Nat) :
    (Int × String) × World :=
  let rw := popExec W
  ((rw.1.code, runCmdCombine rw.1.out ""),
   { rw.2 with ran := rw.2.ran ++ [RunSpec.script args timeout] })

/-- World-level `run_cmd` for a consensus per-agent prompt: additionally
exposes the JSON object found in the output. -/
def runConsensusPrompt (W : World) (agent service detail cmdText excerpt : String) :
    ExtRes × World :=
  let rw := popExec W
  (⟨rw.1.code, runCmdCombine rw.1.out "", rw.1.json⟩,
   { rw.2 with ran := rw.2.ran ++ [RunSpec.consensusPrompt agent service detail cmdText excerpt] })

/-- `is_emergency_stopped`. -/
def is_emergency_stopped (W : World) : Bool := W.control.emergency_stop

/-- `set_emergency_stop`. -/
def set_emergency_stop (W : World) (active : Bool) (chat_id reason : String) :
    ControlState × World :=
  let cur0 := W.control
  let cur1 := { cur0 with
    emergency_stop := active
    updated_at := some W.now
    updated_by_chat_id := some chat_id }
  let rs := pyStrip reason
  let stopReason := if rs ≠ "" then rs else "manual_emergency_stop"
  let resumeReason := if rs ≠ "" then rs else "manual_resume"
  let cur :=
    if active then { cur1 with reason := some stopReason }
    else { cur1 with resume_reason := some resumeReason }
  (cur, { W with control := cur })

/-! ## Approval ledger -/

/-- `create_approval`: persist a fresh `pending` record, return its id. -/
def create_approval (W : World) (chat_id text : String) : String × World :=
  let r := mkApproval W.nextId W.now chat_id text
  (r.id, { W with approvals := W.approvals ++ [r], nextId := W.nextId + 1 })

/-- `load_approval`. -/
def load_approval (W : World) (req_id : String) : Option Approval :=
  W.approvals.find? (fun a => a.id = req_id)

/-- `save_approval`: full-document replacement of the record with the same
id; a record with a fresh id becomes a new document. -/
def save_approval (W : World) (r : Approval) : World :=
  if W.approvals.any (fun a => a.id = r.id) then
    { W with approvals := W.approvals.map (fun a => if a.id = r.id then r else a) }
  else
    { W with approvals := W.approvals ++ [r] }

/-- Insertion into a list sorted by `seq` (the filename sort of the
approval directory). -/
def insertBySeq (a : Approval) : List Approval → List Approval
  | [] => [a]
  | b :: bs => if a.seq ≤ b.seq then a :: b :: bs else b :: insertBySeq a bs

/-- Sort approvals by `seq` (ascending filename order). -/
def sortBySeq : List Approval → List Approval
  | [] => []
  | a :: rest => insertBySeq a (sortBySeq rest)

/-- `list_pending_approvals`: the pending records owned by `chat_id`, in
ascending filename order. -/
def list_pending_approvals (W : World) (chat_id : String) : List Approval :=
  (sortBySeq W.approvals).filter (fun a => a.status = "pending" && a.chat_id = chat_id)

/-- `has_pending_similar_request`. -/
def has_pending_similar_request (W : World) (chat_id reason detail : String) : Bool :=
  let detail_norm := pyLower (pyStrip detail)
  (list_pending_approvals W chat_id).any (fun req =>
    let req_reason := pyLower (pyStrip (req.reason.getD ""))
    let req_detail := pyLower (pyStrip (req.agent_request_reason.getD ""))
    req_reason = pyLower (pyStrip reason) &&
      ((req_detail ≠ "" && req_detail = detail_norm) ||
       (req_detail = "" && detail_norm = "")))

/-- Lexicographic code-point comparison of character lists (the order of
Python string comparison). -/
def charListLe : List Char → List Char → Bool
  | [], _ => true
  | _ :: _, [] => false
  | a :: as1, b :: bs =>
    if a.toNat < b.toNat then true
    else if b.toNat < a.toNat then false
    else charListLe as1 bs

/-- String comparison for `sorted(...)`. -/
def strLe (a b : String) : Bool := charListLe a.toList b.toList

/-- Insertion sort step for strings. -/
def insertStrLe (x : String) : List String → List String
  | [] => [x]
  | y :: ys => if strLe x y then x :: y :: ys else y :: insertStrLe x ys

/-- Ascending sort of strings (`sorted(...)`). -/
def sortStr : List String → List String
  | [] => []
  | x :: xs => insertStrLe x (sortStr xs)

/-- `primary_chat_id`: the lexicographically smallest allowed chat id. -/
def primary_chat_id (W : World) : String :=
  ((sortStr W.cfg.allowedChatIds).headD "")

/-- `has_pending_watchdog_request`. -/
def has_pending_watchdog_request (W : World) (chat_id : String) : Bool :=
  (list_pending_approvals W chat_id).any (fun req =>
    "watchdog_".toList.isPrefixOf (req.reason.getD "").toList)

/-! ## Consensus voter (`run_agent_consensus`) -/

/-- Is a per-agent response an error vote (`code != 0 or not parsed`)? -/
def voteIsError (r : ExtRes) : Bool := r.code ≠ 0 || r.json.isNone

/-- Build one vote record from an agent response, as the body of the
`run_agent_consensus` loop does. -/
def voteOf (agent : String) (r : ExtRes) : Vote :=
  if voteIsError r then
    { agent := agent, ok := r.code = 0, raw := pyTake r.out 1200, decision := "error",
      requires_human := false, confidence := 0, reason := "vote_failed", yes := none }
  else
    let j := r.json.getD ⟨"", false, 0, ""⟩
    let decision := pyLower (pyStrip j.decision)
    let yes := j.requires_human || ["approve", "yes", "request_human"].contains decision
    { agent := agent, ok := r.code = 0, raw := pyTake r.out 1200,
      decision := if decision = "" then "unknown" else decision,
      requires_human := j.requires_human, confidence := j.confidence,
      reason := pyTake (pyStrip j.reason) 300, yes := some yes }

/-- The per-agent prompt loop: query each agent in order, pairing it with
the oracle outcome of its subprocess call. -/
def consensusLoop (detail cmdText excerpt : String) :
    List String → World → List (String × ExtRes) × World
  | [], W => ([], W)
  | a :: rest, W =>
    let rw := runConsensusPrompt W a (SERVICE_BY_AGENT a) detail cmdText excerpt
    let pw := consensusLoop detail cmdText excerpt rest rw.2
    ((a, rw.1) :: pw.1, pw.2)

/-- `run_agent_consensus`: broadcast the vote prompt to the four agents in
order, tally yes votes and error agents, decide by threshold, persist the
artifact. -/
def run_agent_consensus (W : World)
    (reason_detail original_command_text source_output : String) :
    Bool × Consensus × World :=
  let run_id := "consensus_" ++ toString W.nextRun
  let excerpt := pyTake source_output 900
  let pw := consensusLoop reason_detail original_command_text excerpt AGENTS
    { W with nextRun := W.nextRun + 1 }
  let prs := pw.1
  let W1 := pw.2
  let votes := prs.map (fun pr => voteOf pr.1 pr.2)
  let yes_count := votes.countP (fun v => v.yes = some true)
  let error_agents := (prs.filter (fun pr => voteIsError pr.2)).map Prod.fst
  let passed := decide (yes_count ≥ W.cfg.agentConsensusMin)
  let result : Consensus :=
    { run_id := run_id, created_at := W.now, reason_detail := reason_detail,
      command_text := original_command_text, consensus_min := W.cfg.agentConsensusMin,
      yes_count := yes_count, passed := passed, error_agents := error_agents,
      votes := votes, artifact := "consensus/" ++ run_id ++ ".json" }
  (passed, result, { W1 with consensusRuns := W1.consensusRuns ++ [result] })

/-! ## Plan-review trigger (`trigger_plan_review_for_request`) -/

/-- The plan-review outcome fields written onto a request record. -/
def planReviewStamp (req : Approval) (now : Nat) (co : Int × String) : Approval :=
  { req with
    plan_review_triggered := true
    plan_review_triggered_at := some now
    plan_review_exit_code := some co.1
    plan_review_output_preview := some (pyTake co.2 600) }

/-- `trigger_plan_review_for_request`: once per request, run the planning
review cycle and record its outcome on the request. -/
def trigger_plan_review_for_request (W : World) (chat_id : String)
    (req : Approval) (reason : String) : World :=
  if !W.cfg.autoPlanReviewOnPending then W
  else if req.plan_review_triggered then W
  else if pyStrip req.id = "" then W
  else
    let req_id := pyStrip req.id
    let W1 := send W chat_id (Msg.devPausedPlanReview req_id)
    let cw := runScript W1
      ["./scripts/autonomy/plan-review-cycle.sh", "--reason",
       "pending_request:" ++ req_id ++ ":" ++ reason, "--repo", W1.cfg.planReviewRepo]
      (some 1200)
    let req2 := planReviewStamp req cw.2.now cw.1
    let W3 := save_approval cw.2 req2
    send W3 chat_id (Msg.planReviewResult req_id (cw.1.1 = 0) cw.1.2)

/-! ## Post-execution inspectors -/

/-- Creation of the `agent_consensus_request` approval (the tail of
`maybe_request_human_on_agent_signal` once the vote passed or no vote was
required). -/
def consensusRequestStamp (cfg : Config) (req0 : Approval)
    (reason_detail crid cart : String) (cyes : Nat) : Approval :=
  let req1 := { req0 with
    reason := some "agent_consensus_request"
    agent_request_reason := some reason_detail }
  let req2 :=
    if cfg.agentConsensusRequired then
      let r := { req1 with
        consensus_required := some true
        consensus_min := some cfg.agentConsensusMin
        consensus_yes := some cyes }
      let r := if crid ≠ "" then { r with consensus_run_id := some crid } else r
      if cart ≠ "" then { r with consensus_artifact := some cart } else r
    else req1
  { req2 with
    note := some "Auto-created from explicit [HUMAN_REQUEST] marker in agent output." }

/-- The stamped request always carries the `agent_consensus_request`
reason. -/
theorem consensusRequestStamp_reason (cfg : Config) (req0 : Approval)
    (d crid cart : String) (cyes : Nat) :
    (consensusRequestStamp cfg req0 d crid cart cyes).reason =
      some "agent_consensus_request" := by
  unfold consensusRequestStamp
  split
  · split <;> split <;> rfl
  · rfl

/-- Creation of the `agent_consensus_request` approval (the tail of
`maybe_request_human_on_agent_signal` once the vote passed or no vote was
required). -/
def signalCreateRequest (W9 : World) (chat_id original_command_text reason_detail
    crid cart : String) (cyes : Nat) : Option String × World :=
  let cra := create_approval W9 chat_id original_command_text
  let req_id := cra.1
  let Wa := cra.2
  match load_approval Wa req_id with
  | none => (some req_id, Wa)
  | some req0 =>
    let req3 := consensusRequestStamp W9.cfg req0 reason_detail crid cart cyes
    let Wb := save_approval Wa req3
    let Wc := send Wb chat_id
      (Msg.consensusRequested req_id reason_detail original_command_text)
    let Wd := trigger_plan_review_for_request Wc chat_id req3 "agent_consensus_request"
    (some req_id, Wd)

/-- `maybe_request_human_on_agent_signal`: on a `[HUMAN_REQUEST]`-style
marker in the output, dedupe, optionally run the consensus vote, and create
the appropriate approval (or only a rejection note). -/
def maybe_request_human_on_agent_signal (W : World)
    (chat_id original_command_text output : String) : Option String × World :=
  match extract_agent_human_request_reason output with
  | none => (none, W)
  | some reason_detail =>
    if has_pending_similar_request W chat_id "agent_consensus_request" reason_detail then
      (none, W)
    else
      if W.cfg.agentConsensusRequired then
        let W1 := send W chat_id (Msg.consensusRunning W.cfg.agentConsensusMin)
        let pcw := run_agent_consensus W1 reason_detail original_command_text output
        let consensus_passed := pcw.1
        let consensus := pcw.2.1
        let W2 := pcw.2.2
        let yes_count := consensus.yes_count
        let artifact := consensus.artifact
        let error_agents := consensus.error_agents
        if error_agents ≠ [] && !consensus_passed then
          let crb := create_approval W2 chat_id original_command_text
          let req_id := crb.1
          let W3 := crb.2
          match load_approval W3 req_id with
          | none => (some req_id, W3)
          | some req0 =>
            let req1 := { req0 with
              reason := some "agent_unavailable_during_consensus"
              agent_request_reason := some reason_detail
              consensus_run_id := some consensus.run_id
              consensus_artifact := some artifact
              error_agents := some error_agents
              note := some "Immediate escalation: one or more agents failed during consensus." }
            let W4 := save_approval W3 req1
            let W5 := send W4 chat_id
              (Msg.consensusUnavailable req_id reason_detail error_agents yes_count artifact)
            let W6 := trigger_plan_review_for_request W5 chat_id req1
              "agent_unavailable_during_consensus"
            (some req_id, W6)
        else if !consensus_passed then
          (none, send W2 chat_id
            (Msg.consensusRejectedNote reason_detail yes_count W2.cfg.agentConsensusMin artifact))
        else
          signalCreateRequest W2 chat_id original_command_text reason_detail
            consensus.run_id artifact yes_count
      else
        signalCreateRequest W chat_id original_command_text reason_detail "" "" 0

/-- `maybe_request_human_on_blocker`: classify failed output against the
blocker taxonomy and auto-create an approval. -/
def maybe_request_human_on_blocker (W : World)
    (chat_id original_command_text output : String) : Option String × World :=
  if !W.cfg.autoRequestOnBlocker then (none, W)
  else
    match detect_human_blocker output with
    | none => (none, W)
    | some reason =>
      let crc := create_approval W chat_id original_command_text
      let req_id := crc.1
      let W1 := crc.2
      match load_approval W1 req_id with
      | none => (some req_id, W1)
      | some req0 =>
        let req1 := { req0 with
          reason := some reason
          note := some "Auto-created due to blocker detection on failed command." }
        let W2 := save_approval W1 req1
        let W3 := send W2 chat_id
          (Msg.blockerIntervention req_id reason original_command_text)
        let W4 := trigger_plan_review_for_request W3 chat_id req1 reason
        (some req_id, W4)

/-- `report_result`: one PASS/FAIL reply, then the agent-signal inspector,
then (on failure, when no request was created) the blocker inspector. -/
def report_result (W : World) (chat_id label : String) (code : Int)
    (output original_command_text : String) : World :=
  let W1 := send W chat_id (Msg.cmdResult label (code = 0) output)
  let rqw := maybe_request_human_on_agent_signal W1 chat_id
    original_command_text output
  if code ≠ 0 then
    match rqw.1 with
    | none => (maybe_request_human_on_blocker rqw.2 chat_id original_command_text output).2
    | some _ => rqw.2
  else rqw.2

/-! ## Watchdog (`run_watchdog_tick`) -/

/-- The normalized failure fingerprint: strip, lowercase, collapse
whitespace, truncate to 1500 chars.  The SHA-1 hex digest of the source is
modelled by the normalized text itself (an injective fingerprint, so
fingerprint equality coincides with equality of normalized outputs). -/
def watchdogFingerprint (out : String) : String :=
  pyTake (collapseWs (pyLower (pyStrip out))) 1500

/-- The body of a watchdog tick after the health probe: on success clear
the alert (announcing recovery), on failure deduplicate by fingerprint
within the cooldown, suppress while a watchdog approval is pending,
otherwise create a `/status` approval and alert. -/
def watchdogProcess (W1 : World) (chat_id : String) (code : Int) (out : String) : World :=
  let state := W1.watchdog
  let now_ts := W1.now
  if code = 0 then
    let W2 := if state.alert_active then send W1 chat_id Msg.watchdogRecovered else W1
    let okState := { state with
      alert_active := false
      last_ok_at := some now_ts
      last_failure_hash := "" }
    { W2 with watchdog := okState }
  else
    let failure_hash := watchdogFingerprint out
    let reason := (detect_human_blocker out).getD "agent_watchdog_failed"
    let req_reason := "watchdog_" ++ reason
    let alertState := { state with
      alert_active := true
      last_alert_at := now_ts
      last_failure_hash := failure_hash
      last_reason := some req_reason
      last_seen_at := some now_ts }
    if state.alert_active && state.last_failure_hash = failure_hash &&
        now_ts - state.last_alert_at < W1.cfg.watchdogAlertCooldownSeconds then
      { W1 with watchdog := { state with last_seen_at := some now_ts } }
    else if has_pending_watchdog_request W1 chat_id then
      { W1 with watchdog := alertState }
    else
      let crw := create_approval W1 chat_id "/status"
      let req_id := crw.1
      let W2 := crw.2
      let W5 :=
        match load_approval W2 req_id with
        | none => W2
        | some req0 =>
          let req1 := { req0 with
            reason := some req_reason
            note := some "Auto-created by watchdog due to agent health failure."
            watchdog_failure_hash := some failure_hash
            watchdog_excerpt := some (pyTake out 1200) }
          let W3 := save_approval W2 req1
          let W4 := send W3 chat_id
            (Msg.watchdogIntervention req_id req_reason (pyTake out 1000))
          trigger_plan_review_for_request W4 chat_id req1 req_reason
      { W5 with watchdog := alertState }

/-- `run_watchdog_tick`: probe the fleet, then process the outcome with
`watchdogProcess`. -/
def run_watchdog_tick (W : World) : World :=
  if !W.cfg.watchdogEnabled then W
  else if is_emergency_stopped W then W
  else
    let chat_id := primary_chat_id W
    let args := ["./scripts/autonomy/test-all-agents.sh", "--prompt", W.cfg.watchdogPrompt]
      ++ (if !W.cfg.watchdogCheckMoltbook then ["--skip-moltbook"] else [])
    let cw := runScript W args (some W.cfg.watchdogTimeoutSeconds)
    watchdogProcess cw.2 chat_id cw.1.1 cw.1.2

/-! ## Command dispatcher (`handle_command`)

The `/approve` branch re-enters the dispatcher on the stored command text
with `bypass_approval=True`; the explicit fuel argument bounds that replay
depth (with fuel exhausted the dispatcher does nothing, which no theorem
below relies on: each is stated with enough fuel for its replay chain). -/

/-- `safe_rel_path(raw)` + `.exists()`: `some resolved` when `raw` resolves
to an existing file inside the repository root. -/
def resolveTaskFile (W : World) (raw : String) : Option String :=
  (W.fsTasks.find? (fun pr => pr.1 = raw)).map Prod.snd

/-- Split a character list on commas, keeping empty segments (Python
`str.split(",")`). -/
def splitCommaChars : List Char → List (List Char)
  | [] => [[]]
  | c :: rest =>
    if c = ',' then [] :: splitCommaChars rest
    else
      match splitCommaChars rest with
      | [] => [[c]]
      | g :: gs => (c :: g) :: gs

/-- Python `str.split(",")`. -/
def splitComma (s : String) : List String := (splitCommaChars s.toList).map List.asString

/-- The `/ask` execution tail: query the agent service, then report. -/
def askRun (W : World) (chat_id text agent prompt : String) : World :=
  let service := SERVICE_BY_AGENT agent
  let W1 := send W chat_id (Msg.queryingAgent agent)
  let cw := runScript W1 ["./scripts/prompt-one-agent.sh", service, prompt] (some 240)
  report_result cw.2 chat_id ("ask:" ++ agent) cw.1.1 cw.1.2 text

/-- The `/commit` execution tail: validate the task file, run the commit
script, report. -/
def commitRun (W : World) (chat_id text agent task_raw : String) : World :=
  match resolveTaskFile W task_raw with
  | none => send W chat_id (Msg.invalidTaskFile task_raw)
  | some task_path =>
    let W1 := send W chat_id (Msg.runningCommit agent)
    let cw := runScript W1
      ["./scripts/autonomy/agent-dev-commit.sh", agent, task_path] (some 600)
    report_result cw.2 chat_id ("commit:" ++ agent) cw.1.1 cw.1.2 text

/-- The `/pr` execution tail: assemble the script arguments, run, report. -/
def prRun (W : World) (chat_id text agent base title : String) : World :=
  let pr_args := ["./scripts/autonomy/create-pr-if-approved.sh", agent, base]
    ++ (if title ≠ "" then [title] else [])
  let W1 := send W chat_id (Msg.creatingPr agent base)
  let cw := runScript W1 pr_args (some 900)
  report_result cw.2 chat_id ("pr:" ++ agent) cw.1.1 cw.1.2 text

/-- The `/status` execution tail: run the fleet health check, report. -/
def statusRun (W : World) (chat_id text : String) : World :=
  let W1 := send W chat_id Msg.runningHealthCheck
  let cw := runScript W1
    ["./scripts/autonomy/test-all-agents.sh", "--prompt", "한 문장으로 hello"] none
  report_result cw.2 chat_id "status" cw.1.1 cw.1.2 text

/-- The `/e2e` and `/e2e_merge` execution tail: resolve the agent list,
validate it, run the collaboration flow, report. -/
def e2eDispatch (W : World) (chat_id text cmd : String) (args : List String) : World :=
  let agents :=
    if W.cfg.leaderOnlyMode then [W.cfg.leaderAgent]
    else
      let agents_csv := args.getD 0 "gpt,claude,gemini,grok"
      ((splitComma agents_csv).map (fun a => pyLower (pyStrip a))).filter (fun a => a ≠ "")
  let bad := agents.filter (fun a => a ∉ AGENTS)
  if bad ≠ [] then send W chat_id (Msg.unknownAgents bad)
  else if agents = [] then send W chat_id Msg.noAgents
  else
    let e2e_args :=
      ["./scripts/autonomy/test-collab-main-flow.sh", "--agents",
       String.intercalate " " agents, "--review-retries", "5",
       "--review-retry-sleep", "8", "--commit-retries", "5",
       "--commit-retry-sleep", "8"]
    if cmd = "/e2e" then
      let W1 := send W chat_id (Msg.runningE2E false)
      let cw := runScript W1 (e2e_args ++ ["--no-merge"]) (some 1800)
      report_result cw.2 chat_id "e2e" cw.1.1 cw.1.2 text
    else if !W.cfg.enableE2EMerge then send W chat_id Msg.e2eMergeDisabled
    else
      let W1 := send W chat_id (Msg.runningE2E true)
      let cw := runScript W1 e2e_args (some 1800)
      report_result cw.2 chat_id "e2e" cw.1.1 cw.1.2 text

/-- The execution phase of the dispatcher: the tool-running commands
(`/status`, `/ask`, `/commit`, `/pr`, `/e2e`, `/e2e_merge`) and the unknown
fallback, reached after every gate has passed. -/
def dispatchExecute (W : World) (chat_id text cmd : String) (args : List String) : World :=
  if cmd = "/status" then statusRun W chat_id text
  else if cmd = "/ask" then
    if W.cfg.leaderOnlyMode then
      match args with
      | [] => send W chat_id Msg.usageAskLeader
      | a0 :: restArgs =>
        if pyLower a0 ∈ AGENTS then
          if pyLower a0 ≠ W.cfg.leaderAgent then send W chat_id Msg.leaderOnlyAsk
          else if restArgs = [] then send W chat_id Msg.usageAskLeader
          else askRun W chat_id text W.cfg.leaderAgent ((pySplitN text 2).getD 2 "")
        else askRun W chat_id text W.cfg.leaderAgent ((pySplitN text 1).getD 1 "")
    else
      match args with
      | a0 :: _ :: _ =>
        let agent := pyLower a0
        if agent ∉ AGENTS then send W chat_id (Msg.unknownAgent agent)
        else askRun W chat_id text agent ((pySplitN text 2).getD 2 "")
      | _ => send W chat_id Msg.usageAsk
  else if cmd = "/commit" then
    if W.cfg.leaderOnlyMode then
      match args with
      | [a0] => commitRun W chat_id text W.cfg.leaderAgent a0
      | [a0, a1] =>
        if pyLower a0 ∈ AGENTS then
          if pyLower a0 ≠ W.cfg.leaderAgent then send W chat_id Msg.leaderOnlyCommit
          else commitRun W chat_id text W.cfg.leaderAgent a1
        else send W chat_id Msg.usageCommitLeader
      | _ => send W chat_id Msg.usageCommitLeader
    else
      match args with
      | [a0, a1] =>
        let agent := pyLower a0
        if agent ∉ AGENTS then send W chat_id (Msg.unknownAgent agent)
        else commitRun W chat_id text agent a1
      | _ => send W chat_id Msg.usageCommit
  else if cmd = "/pr" then
    if W.cfg.leaderOnlyMode then
      match args with
      | [] => prRun W chat_id text W.cfg.leaderAgent "main" ""
      | a0 :: restArgs =>
        if pyLower a0 ∈ AGENTS then
          if pyLower a0 ≠ W.cfg.leaderAgent then send W chat_id Msg.leaderOnlyPr
          else
            prRun W chat_id text W.cfg.leaderAgent (restArgs.getD 0 "main")
              (if restArgs.length ≥ 2 then String.intercalate " " (restArgs.drop 1) else "")
        else
          prRun W chat_id text W.cfg.leaderAgent ((a0 :: restArgs).getD 0 "main")
            (if (a0 :: restArgs).length ≥ 2 then
              String.intercalate " " ((a0 :: restArgs).drop 1) else "")
    else
      match args with
      | [] => send W chat_id Msg.usagePr
      | a0 :: restArgs =>
        let agent := pyLower a0
        if agent ∉ AGENTS then send W chat_id (Msg.unknownAgent agent)
        else
          prRun W chat_id text agent (restArgs.getD 0 "main")
            (if restArgs.length ≥ 2 then String.intercalate " " (restArgs.drop 1) else "")
  else if cmd = "/e2e" || cmd = "/e2e_merge" then e2eDispatch W chat_id text cmd args
  else send W chat_id Msg.unknownCommand

/-- The stop-command tail: latch the emergency stop, announce. -/
def emergencyStopRun (W : World) (chat_id : String) (args : List String) : World :=
  let reasonArg := if args ≠ [] then pyStrip (String.intercalate " " args)
    else "manual_emergency_stop"
  let sw := set_emergency_stop W true chat_id reasonArg
  send sw.2 chat_id (Msg.emergencyActivated sw.1.reason)

/-- The resume-command tail: clear the emergency stop, announce. -/
def resumeRun (W : World) (chat_id : String) (args : List String) : World :=
  let reasonArg := if args ≠ [] then pyStrip (String.intercalate " " args)
    else "manual_resume"
  let sw := set_emergency_stop W false chat_id reasonArg
  send sw.2 chat_id (Msg.emergencyCleared sw.1.resume_reason)

/-- The `/plan_review` tail: run the planning review cycle, report. -/
def planReviewRun (W : World) (chat_id text : String) : World :=
  let W1 := send W chat_id Msg.planReviewRunning
  let cw := runScript W1
    ["./scripts/autonomy/plan-review-cycle.sh", "--reason", "manual_command",
     "--repo", W1.cfg.planReviewRepo] (some 1200)
  report_result cw.2 chat_id "plan_review" cw.1.1 cw.1.2 text

/-- The `/pending` tail: list the caller's pending approvals. -/
def pendingListRun (W : World) (chat_id : String) : World :=
  let rows := list_pending_approvals W chat_id
  if rows = [] then send W chat_id Msg.noPending
  else send W chat_id
    (Msg.pendingList ((rows.take 20).map (fun r => (r.id, r.created_at, r.command_text))))

/-- The `/reject` branch: load, gate on owner and status, mark rejected. -/
def rejectRun (W : World) (chat_id : String) (args : List String) : World :=
  match args with
  | [a0] =>
    let req_id := pyStrip a0
    match load_approval W req_id with
    | none => send W chat_id (Msg.requestNotFound req_id)
    | some req =>
      if req.chat_id ≠ chat_id then send W chat_id Msg.unauthorized
      else if req.status ≠ "pending" then
        send W chat_id (Msg.alreadyResolved req.status req_id)
      else
        let req2 := { req with
          status := "rejected"
          resolved_at := some W.now
          resolved_by_chat_id := some chat_id }
        send (save_approval W req2) chat_id (Msg.rejectedOk req_id)
  | _ => send W chat_id Msg.usageReject

/-- Committing an `/approve`: mark the record approved, persist it and
announce the replay (the dispatcher then re-enters on the stored command
text). -/
def approveCommit (W : World) (chat_id req_id : String) (req : Approval) : World :=
  let req2 := { req with
    status := "approved"
    resolved_at := some W.now
    resolved_by_chat_id := some chat_id }
  let W1 := save_approval W req2
  send W1 chat_id (Msg.approvedExecuting req_id (pyStrip req.command_text))

/-- `handle_command`. -/
def handle_command : Nat → World → String → String → Bool → World
  | 0, W, _, _, _ => W
  | Nat.succ fuel, W, chat_id, text, bypass_approval =>
    let pc := parse_command text
    let cmd := pc.1
    let args := pc.2
    if cmd = "" then W
    else
      let cmd_key := command_key cmd
      if cmd = "/start" || cmd = "/help" then send W chat_id Msg.helpText
      else if cmd ∈ STOP_COMMANDS then emergencyStopRun W chat_id args
      else if cmd ∈ RESUME_COMMANDS then resumeRun W chat_id args
      else if W.cfg.minimalCommandMode && cmd ∉ MINIMAL_ALLOWED_COMMANDS then
        send W chat_id Msg.minimalModeDisabled
      else if is_emergency_stopped W && cmd ∉ ALLOWED_WHEN_STOPPED then
        send W chat_id Msg.stoppedGuidance
      else if cmd = "/plan_review" then planReviewRun W chat_id text
      else if cmd = "/pending" then pendingListRun W chat_id
      else if cmd = "/reject" then rejectRun W chat_id args
      else if cmd = "/approve" then
        match args with
        | [a0] =>
          if is_emergency_stopped W then send W chat_id Msg.approveBlockedStopped
          else
            let req_id := pyStrip a0
            match load_approval W req_id with
            | none => send W chat_id (Msg.requestNotFound req_id)
            | some req =>
              if req.chat_id ≠ chat_id then send W chat_id Msg.unauthorized
              else if req.status ≠ "pending" then
                send W chat_id (Msg.alreadyResolved req.status req_id)
              else
                handle_command fuel (approveCommit W chat_id req_id req) chat_id
                  (pyStrip req.command_text) true
        | _ => send W chat_id Msg.usageApprove
      else if requires_approval W.cfg cmd && !bypass_approval then
        let crg := create_approval W chat_id text
        let req_id := crg.1
        let W1 := crg.2
        match load_approval W1 req_id with
        | none => W1
        | some req0 =>
          let req1 := { req0 with reason := some "pre_execution_approval_required" }
          let W2 := save_approval W1 req1
          let W3 := send W2 chat_id (Msg.approvalRequired req_id text)
          trigger_plan_review_for_request W3 chat_id req1 "pre_execution_approval_required"
      else if W.cfg.pauseDevWhenPending && cmd_key ∈ DEV_BLOCK_COMMAND_KEYS &&
          !bypass_approval then
        match list_pending_approvals W chat_id with
        | [] => dispatchExecute W chat_id text cmd args
        | req :: _ =>
          let reason := req.reason.getD "pending_human_intervention"
          let W1 := send W chat_id (Msg.devPaused req.id reason)
          trigger_plan_review_for_request W1 chat_id req reason
      else dispatchExecute W chat_id text cmd args

/-! ## Content quarantine (specification side)

The specification describes a Content Quarantine step (URL allowlisting
and prompt-injection screening of operator free text) inside the `/ask`
dispatch path, but the source's `/ask` branch invokes the per-agent prompt
tool unconditionally and the source contains no quarantine computation at
all.  The definitions of this section therefore follow the spec's words:
they are the specification side of the divergence comparison for the
quarantine claim, stated against the dispatcher translated from the
source above. -/

/-- Modelled from the spec: the characters excluded from a URL match by the
extraction regex (whitespace plus angle brackets, parentheses and the two
quote characters). -/
def urlStopChar (c : Char) : Bool :=
  isPyWs c || c = '<' || c = '>' || c = '(' || c = ')' || c = '"' || c = Char.ofNat 39

/-- Modelled from the spec: trailing punctuation trimmed from an extracted
URL. -/
def urlTrailChar (c : Char) : Bool :=
  c = ')' || c = ',' || c = '.' || c = ';' || c = ':' || c = '!' || c = '?'

/-- Modelled from the spec: extract every maximal `https?://`-prefixed run
of non-stop characters, scanning left to right (fuel-indexed worker). -/
def extractUrlsAux : Nat → List Char → List (List Char)
  | 0, _ => []
  | _, [] => []
  | Nat.succ fuel, 'h' :: 't' :: 't' :: 'p' :: 's' :: ':' :: '/' :: '/' :: rest =>
    let body := rest.takeWhile (fun c => !urlStopChar c)
    ("https://".toList ++ body) :: extractUrlsAux fuel (rest.drop body.length)
  | Nat.succ fuel, 'h' :: 't' :: 't' :: 'p' :: ':' :: '/' :: '/' :: rest =>
    let body := rest.takeWhile (fun c => !urlStopChar c)
    ("http://".toList ++ body) :: extractUrlsAux fuel (rest.drop body.length)
  | Nat.succ fuel, _ :: rest => extractUrlsAux fuel rest

/-- Modelled from the spec: URL extraction with trailing-punctuation
trimming. -/
def extractUrls (text : String) : List String :=
  (extractUrlsAux text.toList.length text.toList).map
    (fun u => List.asString (u.reverse.dropWhile urlTrailChar).reverse)

/-- Modelled from the spec: the scheme of an extracted URL (each extracted
URL starts with one of the two schemes). -/
def urlScheme (url : String) : String :=
  if "https://".toList.isPrefixOf url.toList then "https" else "http"

/-- Modelled from the spec: the host of a URL - the authority up to the
first `/`, `?` or `#`, with userinfo and port removed, lowercased; `none`
when empty. -/
def urlHost (url : String) : Option String :=
  let afterScheme :=
    if "https://".toList.isPrefixOf url.toList then url.toList.drop 8 else url.toList.drop 7
  let netloc := afterScheme.takeWhile (fun c => c ≠ '/' && c ≠ '?' && c ≠ '#')
  let afterUser :=
    match (netloc.reverse.takeWhile (· ≠ '@')).reverse with
    | [] => netloc
    | h :: t => if netloc.contains '@' then h :: t else netloc
  let host := (afterUser.takeWhile (· ≠ ':')).map pyLowerChar
  if host = [] then none else some ⟨host⟩

/-- Modelled from the spec: allowlist matching by exact equality or by the
suffix `.<allowed>`. -/
def hostAllowed (allow : List String) (host : String) : Bool :=
  allow.any (fun a => host = a || ("." ++ a).toList.isSuffixOf host.toList)

/-- Modelled from the spec: the per-URL violation tags, in rule order
(missing host, insecure http outside localhost, host not allowlisted). -/
def urlViolations (allow : List String) (url : String) : List String :=
  match urlHost url with
  | none => ["missing_host:" ++ url]
  | some host =>
    (if urlScheme url = "http" && host ≠ "localhost" && host ≠ "127.0.0.1" then
      ["insecure_http_url:" ++ url] else [])
    ++ (if !hostAllowed allow host then ["host_not_allowlisted:" ++ host] else [])

/-- Modelled from the spec: the fixed injection-pattern set - variants of
"ignore previous instructions", "do not follow system", piped
curl/wget-to-shell, and secret-exfiltration phrases - matched against the
lowercased text; each match yields its pattern tag. -/
def injectionPatterns : List (Pat × String) :=
  [ (Pat.lit "ignore previous instructions", "ignore_previous_instructions"),
    (Pat.lit "ignore all previous instructions", "ignore_previous_instructions_all"),
    (Pat.lit "ignore the previous instructions", "ignore_previous_instructions_the"),
    (Pat.lit "disregard previous instructions", "disregard_previous_instructions"),
    (Pat.lit "ignore prior instructions", "ignore_prior_instructions"),
    (Pat.lit "do not follow system", "do_not_follow_system"),
    (Pat.lit "do not follow the system", "do_not_follow_the_system"),
    (Pat.seqDot "curl" "| sh", "curl_pipe_sh"),
    (Pat.seqDot "curl" "|sh", "curl_pipe_sh_tight"),
    (Pat.seqDot "wget" "| sh", "wget_pipe_sh"),
    (Pat.seqDot "wget" "|sh", "wget_pipe_sh_tight"),
    (Pat.lit "reveal your system prompt", "reveal_system_prompt"),
    (Pat.lit "print your secrets", "print_secrets"),
    (Pat.lit "send me your api key", "send_api_key"),
    (Pat.lit "exfiltrate", "exfiltrate") ]

/-- Modelled from the spec: the injection-pattern tags of a text. -/
def injectionTags (text : String) : List String :=
  injectionPatterns.filterMap (fun pr =>
    if patMatch (pyLower text) pr.1 then some ("blocked_pattern:" ++ pr.2) else none)

/-- Modelled from the spec: the full violation list of a free-form text -
URL violations in extraction order, then injection-pattern tags. -/
def quarantineViolations (allow : List String) (text : String) : List String :=
  ((extractUrls text).map (fun u => urlViolations allow u)).flatten ++ injectionTags text

/-! ## Concrete fixtures for witnesses -/

/-- A two-operator configuration with all environment defaults. -/
def baseCfg : Config := defaultConfig ["111", "222"]

/-- A fresh world: no approvals, latch off, watchdog idle, empty logs. -/
def baseWorld : World where
  cfg := baseCfg
  approvals := []
  fsTasks := []
  control := ⟨false, none, none, none, none⟩
  watchdog := ⟨false, 0, "", none, none, none⟩
  consensusRuns := []
  msgs := []
  ran := []
  exec := []
  nextId := 0
  nextRun := 0
  now := 1000

/-- A record already resolved as approved, owned by chat `111`. -/
def resolvedApproval : Approval :=
  { mkApproval 0 1000 "111" "/status" with status := "approved" }

/-- A world holding only `resolvedApproval`. -/
def resolvedWorld : World := { baseWorld with approvals := [resolvedApproval] }

/-- A pending record owned by chat `111`. -/
def pendingApproval : Approval := mkApproval 0 1000 "111" "/status"

/-- A world holding only `pendingApproval`. -/
def pendingWorld : World := { baseWorld with approvals := [pendingApproval] }

/-- `pendingWorld` with the emergency-stop latch on. -/
def stoppedPendingWorld : World :=
  { pendingWorld with control := ⟨true, some 900, some "111", some "maintenance", none⟩ }

/-- Every `pre_execution_approval_required` record of the final world was
already present, with the same id and the same tag, in the initial world:
the relation witnessing that a step creates no new pre-execution
approval. -/
def preOk (W Wf : World) : Prop :=
  ∀ a ∈ Wf.approvals, a.reason = some "pre_execution_approval_required" →
    ∃ b ∈ W.approvals, b.id = a.id ∧ b.reason = some "pre_execution_approval_required"

/-- A pending record awaiting its pre-execution approval. -/
def preApproval : Approval :=
  { mkApproval 0 1000 "111" "/status" with
    reason := some "pre_execution_approval_required" }

/-- A world holding only `preApproval`. -/
def preWorld : World := { baseWorld with approvals := [preApproval] }

/-- `baseWorld` with minimal command mode off, so that `/ask` dispatches. -/
def quarWorld : World := { baseWorld with cfg := { baseCfg with minimalCommandMode := false } }

/-! ## Claim theorems -/

/-- **C1.**  The quarantine gate the claim describes is absent from the
code.  For the claim's failing input `/ask leader https://attacker.example/x`
(sent from an allowed chat with minimal command mode off), the
specification's violation computation on the forwarded prompt is exactly
the `host_not_allowlisted:attacker.example` tag whenever the allowlist
rejects `attacker.example` - so the spec requires a refusal listing that
tag and no tool invocation - while the dispatcher translated from the
source invokes `./scripts/prompt-one-agent.sh` on exactly that prompt and
replies only with the querying banner and the result report. -/
theorem ask_quarantine_missing (allow : List String)
    (hAtk : hostAllowed allow "attacker.example" = false) :
    quarantineViolations allow "leader https://attacker.example/x" =
      ["host_not_allowlisted:attacker.example"] ∧
    (handle_command 1 quarWorld "111" "/ask leader https://attacker.example/x" false).ran =
      quarWorld.ran ++ [RunSpec.script
        ["./scripts/prompt-one-agent.sh", "openclaw-gemini",
         "leader https://attacker.example/x"] (some 240)] ∧
    (handle_command 1 quarWorld "111" "/ask leader https://attacker.example/x" false).msgs =
      quarWorld.msgs ++ [("111", Msg.queryingAgent "gemini"),
        ("111", Msg.cmdResult "ask:gemini" true "")] := by
  refine ⟨?_, by decide, by decide⟩
  unfold quarantineViolations
  rw [(by decide : extractUrls "leader https://attacker.example/x" =
        ["https://attacker.example/x"]),
    (by decide : injectionTags "leader https://attacker.example/x" = ([] : List String))]
  simp [urlViolations,
    (by decide : urlHost "https://attacker.example/x" = some "attacker.example"),
    (by decide : urlScheme "https://attacker.example/x" = "https"), hAtk]

/-- Witness for C1 at the concrete allowlist `["github.com"]`. -/
theorem ask_quarantine_missing_witness :
    hostAllowed ["github.com"] "attacker.example" = false ∧
    quarantineViolations ["github.com"] "leader https://attacker.example/x" =
      ["host_not_allowlisted:attacker.example"] ∧
    (handle_command 1 quarWorld "111" "/ask leader https://attacker.example/x" false).ran =
      quarWorld.ran ++ [RunSpec.script
        ["./scripts/prompt-one-agent.sh", "openclaw-gemini",
         "leader https://attacker.example/x"] (some 240)] :=
  ⟨by decide,
    (ask_quarantine_missing ["github.com"] (by decide)).1,
    (ask_quarantine_missing ["github.com"] (by decide)).2.1⟩

/-- **C2.**  Approval single-resolution: for every approval record whose
status is already `approved` or `rejected`, a later `/reject` (always) or
`/approve` (while the latch is off, which is the only state in which the
`/approve` branch is reachable) of the same id from the owning chat yields
the "already <status>" reply and leaves the approval store - in particular
the record - unchanged. -/
theorem approval_single_resolution (W : World) (chat text text2 a0 : String)
    (r : Approval) (fuel : Nat)
    (hload : load_approval W (pyStrip a0) = some r)
    (hown : r.chat_id = chat)
    (hres : r.status = "approved" ∨ r.status = "rejected") :
    (parse_command text = ("/reject", [a0]) →
      (handle_command (fuel + 1) W chat text false).approvals = W.approvals ∧
      (handle_command (fuel + 1) W chat text false).msgs =
        W.msgs ++ [(chat, Msg.alreadyResolved r.status (pyStrip a0))]) ∧
    (parse_command text2 = ("/approve", [a0]) → is_emergency_stopped W = false →
      (handle_command (fuel + 1) W chat text2 false).approvals = W.approvals ∧
      (handle_command (fuel + 1) W chat text2 false).msgs =
        W.msgs ++ [(chat, Msg.alreadyResolved r.status (pyStrip a0))]) := by
  have hne : r.status ≠ "pending" := by rcases hres with h | h <;> simp [h]
  constructor
  · intro hparse
    simp [handle_command, rejectRun, hparse, hload, hown, hne, STOP_COMMANDS, RESUME_COMMANDS,
      MINIMAL_ALLOWED_COMMANDS, ALLOWED_WHEN_STOPPED, send]
  · intro hparse hstop
    simp [handle_command, rejectRun, hparse, hload, hown, hne, hstop, STOP_COMMANDS, RESUME_COMMANDS,
      MINIMAL_ALLOWED_COMMANDS, ALLOWED_WHEN_STOPPED, send]

/-- Witness for C2: a second resolution attempt on an already-approved
record. -/
theorem approval_single_resolution_witness :
    load_approval resolvedWorld (pyStrip "req_0") = some resolvedApproval ∧
    ((handle_command 1 resolvedWorld "111" "/reject req_0" false).approvals =
        resolvedWorld.approvals ∧
      (handle_command 1 resolvedWorld "111" "/reject req_0" false).msgs =
        resolvedWorld.msgs ++ [("111", Msg.alreadyResolved resolvedApproval.status (pyStrip "req_0"))]) ∧
    ((handle_command 1 resolvedWorld "111" "/approve req_0" false).approvals =
        resolvedWorld.approvals ∧
      (handle_command 1 resolvedWorld "111" "/approve req_0" false).msgs =
        resolvedWorld.msgs ++ [("111", Msg.alreadyResolved resolvedApproval.status (pyStrip "req_0"))]) :=
  ⟨by decide,
    (approval_single_resolution resolvedWorld "111" "/reject req_0" "/approve req_0" "req_0"
      resolvedApproval 0 (by decide) (by decide) (Or.inl (by decide))).1 (by decide),
    (approval_single_resolution resolvedWorld "111" "/reject req_0" "/approve req_0" "req_0"
      resolvedApproval 0 (by decide) (by decide) (Or.inl (by decide))).2 (by decide) (by decide)⟩

/-- **C3.**  While the emergency-stop latch is on, dispatching `/approve`
(whatever its arguments) yields only the stopped-guidance reply - the
latch gate fires before the `/approve` branch, and its reply directs the
operator to `/resume` - resolves nothing, runs nothing, and leaves every
approval record (in particular any pending one) unchanged. -/
theorem approve_blocked_while_stopped (W : World) (chat text : String) (fuel : Nat)
    (hstop : is_emergency_stopped W = true)
    (hcmd : (parse_command text).1 = "/approve") :
    (handle_command (fuel + 1) W chat text false).approvals = W.approvals ∧
    (handle_command (fuel + 1) W chat text false).ran = W.ran ∧
    (handle_command (fuel + 1) W chat text false).msgs =
      W.msgs ++ [(chat, Msg.stoppedGuidance)] := by
  refine ⟨?_, ?_, ?_⟩ <;>
    simp [handle_command, hcmd, hstop, STOP_COMMANDS, RESUME_COMMANDS,
      MINIMAL_ALLOWED_COMMANDS, ALLOWED_WHEN_STOPPED, send]

/-- Witness for C3: `/approve` of a pending record while stopped. -/
theorem approve_blocked_while_stopped_witness :
    is_emergency_stopped stoppedPendingWorld = true ∧
    (parse_command "/approve req_0").1 = "/approve" ∧
    (handle_command 1 stoppedPendingWorld "111" "/approve req_0" false).approvals =
      stoppedPendingWorld.approvals ∧
    (handle_command 1 stoppedPendingWorld "111" "/approve req_0" false).msgs =
      stoppedPendingWorld.msgs ++ [("111", Msg.stoppedGuidance)] :=
  ⟨by decide, by decide,
    (approve_blocked_while_stopped stoppedPendingWorld "111" "/approve req_0" 0
      (by decide) (by decide)).1,
    (approve_blocked_while_stopped stoppedPendingWorld "111" "/approve req_0" 0
      (by decide) (by decide)).2.2⟩

/-- **C4.**  Ownership scoping: a `/reject` (always) or `/approve` (while
the latch is off) of an existing record from a chat other than the record
owner yields the "Unauthorized" reply and leaves the approval store - in
particular the record - unchanged. -/
theorem ownership_scoping (W : World) (chat text text2 a0 : String)
    (r : Approval) (fuel : Nat)
    (hload : load_approval W (pyStrip a0) = some r)
    (hown : r.chat_id ≠ chat) :
    (parse_command text = ("/reject", [a0]) →
      (handle_command (fuel + 1) W chat text false).approvals = W.approvals ∧
      (handle_command (fuel + 1) W chat text false).msgs =
        W.msgs ++ [(chat, Msg.unauthorized)]) ∧
    (parse_command text2 = ("/approve", [a0]) → is_emergency_stopped W = false →
      (handle_command (fuel + 1) W chat text2 false).approvals = W.approvals ∧
      (handle_command (fuel + 1) W chat text2 false).msgs =
        W.msgs ++ [(chat, Msg.unauthorized)]) := by
  constructor
  · intro hparse
    simp [handle_command, rejectRun, hparse, hload, hown, STOP_COMMANDS, RESUME_COMMANDS,
      MINIMAL_ALLOWED_COMMANDS, ALLOWED_WHEN_STOPPED, send]
  · intro hparse hstop
    simp [handle_command, rejectRun, hparse, hload, hown, hstop, STOP_COMMANDS, RESUME_COMMANDS,
      MINIMAL_ALLOWED_COMMANDS, ALLOWED_WHEN_STOPPED, send]

/-- Witness for C4: resolution attempts from the non-owning chat `222` on a
record owned by `111`. -/
theorem ownership_scoping_witness :
    load_approval pendingWorld (pyStrip "req_0") = some pendingApproval ∧
    pendingApproval.chat_id ≠ "222" ∧
    ((handle_command 1 pendingWorld "222" "/reject req_0" false).approvals =
        pendingWorld.approvals ∧
      (handle_command 1 pendingWorld "222" "/reject req_0" false).msgs =
        pendingWorld.msgs ++ [("222", Msg.unauthorized)]) ∧
    ((handle_command 1 pendingWorld "222" "/approve req_0" false).approvals =
        pendingWorld.approvals ∧
      (handle_command 1 pendingWorld "222" "/approve req_0" false).msgs =
        pendingWorld.msgs ++ [("222", Msg.unauthorized)]) :=
  ⟨by decide, by decide,
    (ownership_scoping pendingWorld "222" "/reject req_0" "/approve req_0" "req_0"
      pendingApproval 0 (by decide) (by decide)).1 (by decide),
    (ownership_scoping pendingWorld "222" "/reject req_0" "/approve req_0" "req_0"
      pendingApproval 0 (by decide) (by decide)).2 (by decide) (by decide)⟩

/-- **C9 (counterexample).**  The claim - a child process exceeding the
wall-clock timeout makes the runner return a non-zero exit code with an
output fragment describing the timeout - fails at a concrete input: a
process needing 2 seconds against a 1-second timeout makes `runCmd` raise
(`subprocess.run` raises `TimeoutExpired` and the source wraps it in no
`try`), so no `(exit_code, output)` pair is returned at all. -/
theorem runCmd_timeout_raises_counterexample :
    runCmd ⟨2, 0, "out", "err"⟩ 1 = Except.error SubprocessError.timeoutExpired ∧
    ¬ ∃ rc out, runCmd ⟨2, 0, "out", "err"⟩ 1 = Except.ok (rc, out) ∧
        rc ≠ 0 ∧ containsSub out "timeout" = true := by
  constructor
  · rfl
  · rintro ⟨rc, out, h, -, -⟩
    simp [runCmd, subprocessRun] at h

/-- **C9 (amended).**  For every invocation of the command runner whose
child process exceeds the wall-clock timeout, the runner propagates a
`TimeoutExpired` exception to its caller (it does not return an exit code
or output; the update loop catches the exception generically, logs it and
continues). -/
theorem runCmd_timeout_propagates (p : ProcRun) (t : Nat)
    (h : p.duration > t) :
    runCmd p t = Except.error SubprocessError.timeoutExpired := by
  simp [runCmd, subprocessRun, h]

/-- Witness for the amended C9. -/
theorem runCmd_timeout_propagates_witness :
    (5 : Nat) > 2 ∧ runCmd ⟨5, 0, "", ""⟩ 2 = Except.error SubprocessError.timeoutExpired :=
  ⟨by decide, runCmd_timeout_propagates ⟨5, 0, "", ""⟩ 2 (by decide)⟩

/-! ## Spec-side vote predicates (for comparison with the voter) -/

/-- The spec formulation of a *yes* vote: the subprocess succeeded, a JSON
object was found, and `requires_human` is true or the normalized decision
is one of `approve`, `yes`, `request_human`. -/
def spec_vote_yes (r : ExtRes) : Bool :=
  match r.json with
  | none => false
  | some j =>
    r.code = 0 &&
      (j.requires_human || ["approve", "yes", "request_human"].contains (pyLower (pyStrip j.decision)))

/-- The spec formulation of an *error* vote: the subprocess exited non-zero
or no JSON object was found. -/
def spec_vote_error (r : ExtRes) : Bool := r.code ≠ 0 || r.json.isNone

/-- The output post-processing applied to an agent response before voting
(it touches only the captured text, not the exit code or the JSON). -/
def procRes (r : ExtRes) : ExtRes := ⟨r.code, runCmdCombine r.out "", r.json⟩

/-- A yes vote cannot be an error vote. -/
theorem spec_vote_yes_not_error (r : ExtRes) :
    spec_vote_yes r = true → spec_vote_error r = false := by
  rcases r with ⟨c, o, j⟩
  cases j with
  | none => simp [spec_vote_yes]
  | some jv =>
    simp [spec_vote_yes, spec_vote_error]
    intro h _
    simp [h]

/-- The vote loop marks exactly the spec error votes as errors. -/
theorem voteIsError_procRes (r : ExtRes) : voteIsError (procRes r) = spec_vote_error r := by
  rcases r with ⟨c, o, j⟩; cases j <;> rfl

/-- The vote loop marks `yes = some true` exactly on the spec yes votes. -/
theorem voteOf_yes_decide (a : String) (r : ExtRes) :
    decide ((voteOf a (procRes r)).yes = some true) = spec_vote_yes r := by
  rcases r with ⟨c, o, j⟩
  cases j with
  | none => simp [voteOf, voteIsError, spec_vote_yes, procRes]
  | some jv =>
    by_cases hc : c = 0
    · simp [voteOf, voteIsError, spec_vote_yes, procRes, hc]
    · simp [voteOf, voteIsError, spec_vote_yes, procRes, hc]

/-- Component form of `voteOf_yes_decide` (matching the post-processed
response as it appears inside the vote loop). -/
theorem voteOf_yes_decide2 (a : String) (r : ExtRes) (o2 : String) :
    decide ((voteOf a ⟨r.code, o2, r.json⟩).yes = some true) = spec_vote_yes r := by
  rcases r with ⟨c, o, j⟩
  cases j with
  | none => simp [voteOf, voteIsError, spec_vote_yes]
  | some jv =>
    by_cases hc : c = 0
    · simp [voteOf, voteIsError, spec_vote_yes, hc]
    · simp [voteOf, voteIsError, spec_vote_yes, hc]

/-- Component form of `voteIsError_procRes`. -/
theorem voteIsError2 (r : ExtRes) (o2 : String) :
    voteIsError ⟨r.code, o2, r.json⟩ = spec_vote_error r := by
  rcases r with ⟨c, o, j⟩; cases j <;> rfl

/-- The tally of one consensus run over the four queued agent responses:
yes count, error agents (in agent order) and the threshold decision, each
characterized by the spec-side vote predicates. -/
theorem consensus_tally (W : World) (d c o : String) (r0 r1 r2 r3 : ExtRes)
    (rest : List ExtRes) (hw : W.exec = r0 :: r1 :: r2 :: r3 :: rest) :
    (run_agent_consensus W d c o).2.1.yes_count =
      ([r0, r1, r2, r3].filter spec_vote_yes).length ∧
    (run_agent_consensus W d c o).2.1.error_agents =
      ((AGENTS.zip [r0, r1, r2, r3]).filter (fun pr => spec_vote_error pr.2)).map Prod.fst ∧
    ((run_agent_consensus W d c o).1 = true ↔
      (run_agent_consensus W d c o).2.1.yes_count ≥ W.cfg.agentConsensusMin) ∧
    (run_agent_consensus W d c o).2.1.passed = (run_agent_consensus W d c o).1 := by
  refine ⟨?_, ?_, ?_, ?_⟩ <;>
    simp [run_agent_consensus, consensusLoop, runConsensusPrompt, popExec, AGENTS, hw,
      List.countP_cons, List.filter_cons, ← List.countP_eq_length_filter,
      voteOf_yes_decide2, voteIsError2] <;>
    split_ifs <;> simp

/-- **C5.**  Consensus vote counting: for every run over the four agents in
order `gpt, claude, gemini, grok` with queued responses `r0..r3`, a
response votes yes iff `requires_human` is true or its normalized decision
is one of `approve`, `yes`, `request_human` (given it exited zero with a
JSON object found); it is an error iff the subprocess exited non-zero or no
JSON object was found; errors count as neither yes nor no but are recorded
in `error_agents` (in agent order); and the run passes iff
`yes_count >= consensus_min`. -/
theorem consensus_vote_counting (W : World) (d c o : String) (r0 r1 r2 r3 : ExtRes)
    (rest : List ExtRes) (hw : W.exec = r0 :: r1 :: r2 :: r3 :: rest) :
    ((run_agent_consensus W d c o).2.1.yes_count =
        ([r0, r1, r2, r3].filter spec_vote_yes).length) ∧
    (∀ r : ExtRes, spec_vote_yes r = true ↔
        (match r.json with
          | none => False
          | some j => r.code = 0 ∧ (j.requires_human = true ∨
              pyLower (pyStrip j.decision) = "approve" ∨
              pyLower (pyStrip j.decision) = "yes" ∨
              pyLower (pyStrip j.decision) = "request_human"))) ∧
    ((run_agent_consensus W d c o).2.1.error_agents =
        ((AGENTS.zip [r0, r1, r2, r3]).filter (fun pr => spec_vote_error pr.2)).map Prod.fst) ∧
    (∀ r : ExtRes, spec_vote_error r = true ↔ (r.code ≠ 0 ∨ r.json = none)) ∧
    (∀ r : ExtRes, spec_vote_yes r = true → spec_vote_error r = false) ∧
    ((run_agent_consensus W d c o).1 = true ↔
        (run_agent_consensus W d c o).2.1.yes_count ≥ W.cfg.agentConsensusMin) ∧
    ((run_agent_consensus W d c o).2.1.passed = (run_agent_consensus W d c o).1) := by
  obtain ⟨h1, h2, h3, h4⟩ := consensus_tally W d c o r0 r1 r2 r3 rest hw
  refine ⟨h1, ?_, h2, ?_, spec_vote_yes_not_error, h3, h4⟩
  · intro r
    rcases r with ⟨cd, ot, j⟩
    cases j with
    | none => simp [spec_vote_yes]
    | some jv => simp [spec_vote_yes]
  · intro r
    rcases r with ⟨cd, ot, j⟩
    cases j <;> simp [spec_vote_error]

/-- A successful *yes* agent response. -/
def vYes : ExtRes := ⟨0, "ok", some ⟨"approve", false, 90, "fine"⟩⟩

/-- A successful *no* agent response. -/
def vNo : ExtRes := ⟨0, "ok", some ⟨"reject", false, 80, "agents can handle"⟩⟩

/-- An errored agent response (non-zero exit, no JSON found). -/
def vErr : ExtRes := ⟨2, "crash", none⟩

/-- A world whose oracle queue holds the votes `(yes, yes, no, error)`. -/
def consensusWorld : World := { baseWorld with exec := [vYes, vYes, vNo, vErr] }

/-- Witness for C5 at the queued votes `(yes, yes, no, error)` with
threshold 3: two yes votes, `grok` in the error list, run not passed. -/
theorem consensus_vote_counting_witness :
    ((run_agent_consensus consensusWorld "d" "/x" "out").2.1.yes_count =
        ([vYes, vYes, vNo, vErr].filter spec_vote_yes).length) ∧
    ((run_agent_consensus consensusWorld "d" "/x" "out").2.1.error_agents =
        ((AGENTS.zip [vYes, vYes, vNo, vErr]).filter
          (fun pr => spec_vote_error pr.2)).map Prod.fst) ∧
    ((run_agent_consensus consensusWorld "d" "/x" "out").1 = true ↔
        (run_agent_consensus consensusWorld "d" "/x" "out").2.1.yes_count ≥
          consensusWorld.cfg.agentConsensusMin) ∧
    ([vYes, vYes, vNo, vErr].filter spec_vote_yes).length = 2 ∧
    ((AGENTS.zip [vYes, vYes, vNo, vErr]).filter
        (fun pr => spec_vote_error pr.2)).map Prod.fst = ["grok"] ∧
    (run_agent_consensus consensusWorld "d" "/x" "out").1 = false :=
  ⟨(consensus_vote_counting consensusWorld "d" "/x" "out" vYes vYes vNo vErr [] rfl).1,
    (consensus_vote_counting consensusWorld "d" "/x" "out" vYes vYes vNo vErr [] rfl).2.2.1,
    (consensus_vote_counting consensusWorld "d" "/x" "out" vYes vYes vNo vErr [] rfl).2.2.2.2.2.1,
    by decide, by decide, by decide⟩

/-! ## Helper lemmas about the effect primitives -/

/-- A saved record is present in the store afterwards. -/
theorem mem_save_approval (W : World) (r : Approval) :
    r ∈ (save_approval W r).approvals := by
  unfold save_approval
  by_cases h : W.approvals.any (fun a => a.id = r.id)
  · simp only [h, if_true]
    obtain ⟨b, hb, hid⟩ := List.any_eq_true.mp h
    exact List.mem_map.mpr ⟨b, hb, by simp at hid; simp [hid]⟩
  · simp [h]

/-- `runScript` touches only the oracle queue and the invocation log. -/
theorem runScript_state (W : World) (args : List String) (t : Option Nat) :
    (runScript W args t).2.approvals = W.approvals ∧
    (runScript W args t).2.nextId = W.nextId ∧
    (runScript W args t).2.msgs = W.msgs ∧
    (runScript W args t).2.cfg = W.cfg ∧
    (runScript W args t).2.now = W.now := by
  unfold runScript popExec
  cases W.exec <;> simp

/-- A record satisfying `P` exists in the store after saving it and sending
a message. -/
theorem exists_saved (W : World) (chat : String) (m : Msg) (r : Approval)
    (P : Approval → Prop) (hP : P r) :
    ∃ a ∈ (send (save_approval W r) chat m).approvals, P a :=
  ⟨r, by simp only [send]; exact mem_save_approval _ _, hP⟩

/-- After `trigger_plan_review_for_request` on a stored record, a record
with the same id, reason, command text and status is still stored. -/
theorem trigger_preserves (W : World) (chat rsn : String) (req : Approval)
    (hmem : req ∈ W.approvals) :
    ∃ a ∈ (trigger_plan_review_for_request W chat req rsn).approvals,
      a.reason = req.reason ∧ a.id = req.id ∧ a.command_text = req.command_text ∧
      a.status = req.status := by
  unfold trigger_plan_review_for_request
  by_cases h1 : W.cfg.autoPlanReviewOnPending
  · by_cases h2 : req.plan_review_triggered
    · exact ⟨req, by simp [h1, h2, hmem]⟩
    · by_cases h3 : pyStrip req.id = ""
      · exact ⟨req, by simp [h1, h2, h3, hmem]⟩
      · simp only [h1, h2, h3, Bool.not_true, Bool.false_eq_true, if_false, if_true]
        exact exists_saved _ _ _ _ _
          (by simp [planReviewStamp])
  · exact ⟨req, by simp [h1, hmem]⟩

/-- `send` changes only the message log. -/
theorem send_approvals (W : World) (c : String) (m : Msg) :
    (send W c m).approvals = W.approvals := rfl

/-- `send` preserves the oracle queue. -/
theorem send_exec (W : World) (c : String) (m : Msg) : (send W c m).exec = W.exec := rfl

/-- `send` preserves the id counter. -/
theorem send_nextId (W : World) (c : String) (m : Msg) : (send W c m).nextId = W.nextId := rfl

/-- `send` preserves the configuration. -/
theorem send_cfg (W : World) (c : String) (m : Msg) : (send W c m).cfg = W.cfg := rfl

/-- `send` preserves the clock. -/
theorem send_now (W : World) (c : String) (m : Msg) : (send W c m).now = W.now := rfl

/-- `send` preserves the invocation log. -/
theorem send_ran (W : World) (c : String) (m : Msg) : (send W c m).ran = W.ran := rfl

/-- `popExec` touches only the oracle queue. -/
theorem popExec_state (W : World) :
    (popExec W).2.approvals = W.approvals ∧ (popExec W).2.nextId = W.nextId ∧
    (popExec W).2.cfg = W.cfg ∧ (popExec W).2.now = W.now ∧
    (popExec W).2.msgs = W.msgs := by
  unfold popExec; cases W.exec <;> simp

/-- The vote loop touches only the oracle queue, the invocation log and
the vote data. -/
theorem consensusLoop_state (d c e : String) (names : List String) :
    ∀ W : World, (consensusLoop d c e names W).2.approvals = W.approvals ∧
      (consensusLoop d c e names W).2.nextId = W.nextId ∧
      (consensusLoop d c e names W).2.cfg = W.cfg ∧
      (consensusLoop d c e names W).2.now = W.now ∧
      (consensusLoop d c e names W).2.msgs = W.msgs := by
  induction names with
  | nil => intro W; simp [consensusLoop]
  | cons a rest ih =>
    intro W
    obtain ⟨ha, hb, hc, hd, he⟩ :=
      ih (runConsensusPrompt W a (SERVICE_BY_AGENT a) d c e).2
    obtain ⟨pa, pb, pc, pd, pe⟩ := popExec_state W
    unfold consensusLoop
    simp only [ha, hb, hc, hd, he]
    unfold runConsensusPrompt
    simp [pa, pb, pc, pd, pe]

/-- `run_agent_consensus` touches only the oracle queue, the logs and the
consensus artifacts. -/
theorem run_agent_consensus_state (W : World) (d c o : String) :
    (run_agent_consensus W d c o).2.2.approvals = W.approvals ∧
    (run_agent_consensus W d c o).2.2.nextId = W.nextId ∧
    (run_agent_consensus W d c o).2.2.cfg = W.cfg ∧
    (run_agent_consensus W d c o).2.2.now = W.now ∧
    (run_agent_consensus W d c o).2.2.msgs = W.msgs := by
  obtain ⟨ha, hb, hc, hd, he⟩ :=
    consensusLoop_state d c (pyTake o 900) AGENTS { W with nextRun := W.nextRun + 1 }
  unfold run_agent_consensus
  simp [ha, hb, hc, hd, he]

/-- `find?` on a store extended with a fresh id finds the new record. -/
theorem find?_append_singleton (l : List Approval) (r : Approval) (rid : String)
    (h : ∀ b ∈ l, b.id ≠ rid) (hr : r.id = rid) :
    (l ++ [r]).find? (fun a => a.id = rid) = some r := by
  induction l with
  | nil => simp [List.find?, hr]
  | cons b bs ih =>
    have hb : (decide (b.id = rid)) = false := by
      simp
      exact h b (by simp)
    simp only [List.cons_append, List.find?]
    rw [hb]
    exact ih (fun x hx => h x (by simp [hx]))

/-- Loading the id just returned by `create_approval` yields the fresh
payload, provided no stored record already carries that id. -/
theorem load_after_create (W : World) (chat t : String)
    (hfresh : ∀ b ∈ W.approvals, b.id ≠ "req_" ++ toString W.nextId) :
    load_approval (create_approval W chat t).2 (create_approval W chat t).1 =
      some (mkApproval W.nextId W.now chat t) := by
  simp only [load_approval, create_approval]
  exact find?_append_singleton _ _ _ hfresh rfl

/-- After saving a record and triggering its plan review, some stored
record still carries its reason, id, command text and status. -/
theorem exists_after_trigger (W : World) (chat : String) (m : Msg) (rsn : String)
    (r : Approval) (P : Approval → Prop)
    (hP : ∀ a, a.reason = r.reason → a.id = r.id → a.command_text = r.command_text →
      a.status = r.status → P a) :
    ∃ a ∈ (trigger_plan_review_for_request (send (save_approval W r) chat m)
        chat r rsn).approvals, P a := by
  have hmem : r ∈ (send (save_approval W r) chat m).approvals := by
    simp only [send]
    exact mem_save_approval _ _
  obtain ⟨a, ha, h1, h2, h3, h4⟩ := trigger_preserves _ chat rsn r hmem
  exact ⟨a, ha, hP a h1 h2 h3 h4⟩

/-- **C6.**  Escalation exception: whenever a consensus run ends with at
least one agent in `error_agents` and the vote did not pass, an approval
tagged `agent_unavailable_during_consensus` is created (rather than only
the "Consensus rejected" note), and its id is returned as the created
request. -/
theorem consensus_escalation_exception (W : World) (chat cmdText output d : String)
    (r0 r1 r2 r3 : ExtRes) (rest : List ExtRes)
    (hx : extract_agent_human_request_reason output = some d)
    (hdup : has_pending_similar_request W chat "agent_consensus_request" d = false)
    (hcons : W.cfg.agentConsensusRequired = true)
    (hw : W.exec = r0 :: r1 :: r2 :: r3 :: rest)
    (herr : spec_vote_error r0 = true ∨ spec_vote_error r1 = true ∨
      spec_vote_error r2 = true ∨ spec_vote_error r3 = true)
    (hfail : ([r0, r1, r2, r3].filter spec_vote_yes).length < W.cfg.agentConsensusMin)
    (hfresh : ∀ b ∈ W.approvals, b.id ≠ "req_" ++ toString W.nextId) :
    ∃ a ∈ (maybe_request_human_on_agent_signal W chat cmdText output).2.approvals,
      a.reason = some "agent_unavailable_during_consensus" ∧
      a.id = "req_" ++ toString W.nextId ∧
      (maybe_request_human_on_agent_signal W chat cmdText output).1 = some a.id := by
  have hw1 : (send W chat (Msg.consensusRunning W.cfg.agentConsensusMin)).exec =
      r0 :: r1 :: r2 :: r3 :: rest := by simp [send, hw]
  obtain ⟨hyc, herrs, hpass, hpp⟩ :=
    consensus_tally (send W chat (Msg.consensusRunning W.cfg.agentConsensusMin))
      d cmdText output r0 r1 r2 r3 rest hw1
  obtain ⟨sa, sb, sc, sd, se⟩ :=
    run_agent_consensus_state (send W chat (Msg.consensusRunning W.cfg.agentConsensusMin))
      d cmdText output
  have hcfg1 : (send W chat (Msg.consensusRunning W.cfg.agentConsensusMin)).cfg = W.cfg := rfl
  have hpassed : (run_agent_consensus (send W chat
      (Msg.consensusRunning W.cfg.agentConsensusMin)) d cmdText output).1 = false := by
    rcases Bool.eq_false_or_eq_true (run_agent_consensus (send W chat
      (Msg.consensusRunning W.cfg.agentConsensusMin)) d cmdText output).1 with h | h
    · exfalso
      have hge := hpass.mp h
      rw [hyc, hcfg1] at hge
      omega
    · exact h
  have herrne : (run_agent_consensus (send W chat
      (Msg.consensusRunning W.cfg.agentConsensusMin)) d cmdText output).2.1.error_agents ≠ [] := by
    rw [herrs]
    rcases herr with h | h | h | h <;>
      simp [AGENTS, List.filter_cons, h] <;> split_ifs <;> simp
  have happ1 : (run_agent_consensus (send W chat
      (Msg.consensusRunning W.cfg.agentConsensusMin)) d cmdText output).2.2.approvals =
      W.approvals := by rw [sa]; rfl
  have hnid1 : (run_agent_consensus (send W chat
      (Msg.consensusRunning W.cfg.agentConsensusMin)) d cmdText output).2.2.nextId =
      W.nextId := by rw [sb]; rfl
  have hfresh2 : ∀ b ∈ (run_agent_consensus (send W chat
      (Msg.consensusRunning W.cfg.agentConsensusMin)) d cmdText output).2.2.approvals,
      b.id ≠ "req_" ++ toString (run_agent_consensus (send W chat
      (Msg.consensusRunning W.cfg.agentConsensusMin)) d cmdText output).2.2.nextId := by
    rw [happ1, hnid1]; exact hfresh
  have hld := load_after_create ((run_agent_consensus (send W chat
      (Msg.consensusRunning W.cfg.agentConsensusMin)) d cmdText output).2.2) chat cmdText hfresh2
  simp only [maybe_request_human_on_agent_signal]
  simp only [hx, hdup, hcons, Bool.false_eq_true, if_false, if_true, herrne, hpassed,
    Bool.not_false, Bool.and_true, ne_eq, not_false_eq_true, Bool.true_and] at *
  rw [hld]
  simp only [decide_True, if_true]
  refine exists_after_trigger _ _ _ _ _ _ ?_
  intro a h1 h2 h3 h4
  refine ⟨?_, ?_, ?_⟩
  · rw [h1]
  · rw [h2]
    simp only [mkApproval, sb]
    rfl
  · rw [h2]
    simp only [create_approval, mkApproval]


/-- Witness for C6: votes `(yes, yes, no, error)` with `consensus_min = 3`
fail the vote with `grok` in error, and the exception approval is
created. -/
theorem consensus_escalation_exception_witness :
    ∃ a ∈ (maybe_request_human_on_agent_signal consensusWorld "111" "/x"
        "[HUMAN_REQUEST]: need creds").2.approvals,
      a.reason = some "agent_unavailable_during_consensus" ∧
      a.id = "req_" ++ toString consensusWorld.nextId ∧
      (maybe_request_human_on_agent_signal consensusWorld "111" "/x"
        "[HUMAN_REQUEST]: need creds").1 = some a.id :=
  consensus_escalation_exception consensusWorld "111" "/x" "[HUMAN_REQUEST]: need creds"
    "need creds" vYes vYes vNo vErr [] (by decide) (by decide) (by decide) rfl
    (Or.inr (Or.inr (Or.inr (by decide)))) (by decide) (by decide)

/-- Any record present after a save was present before or is the saved
record. -/
theorem mem_save_approval_elim (W : World) (r a : Approval)
    (ha : a ∈ (save_approval W r).approvals) : a ∈ W.approvals ∨ a = r := by
  unfold save_approval at ha
  by_cases h : W.approvals.any (fun x => x.id = r.id)
  · simp only [h, if_true] at ha
    obtain ⟨b, hb, hab⟩ := List.mem_map.mp ha
    by_cases hbid : b.id = r.id
    · right; rw [← hab]; simp [hbid]
    · left; rw [← hab]; simpa [hbid] using hb
  · simp only [h, if_false] at ha
    rcases List.mem_append.mp ha with h1 | h1
    · exact Or.inl h1
    · exact Or.inr (by simpa using h1)

/-- Any record present after a plan-review trigger was present before or
agrees with the triggered request on command text, reason, id and
status. -/
theorem mem_trigger_elim (W : World) (chat rsn : String) (r a : Approval)
    (ha : a ∈ (trigger_plan_review_for_request W chat r rsn).approvals) :
    a ∈ W.approvals ∨ (a.command_text = r.command_text ∧ a.reason = r.reason ∧
      a.id = r.id ∧ a.status = r.status) := by
  by_cases h1 : W.cfg.autoPlanReviewOnPending
  · by_cases h2 : r.plan_review_triggered
    · have he : trigger_plan_review_for_request W chat r rsn = W := by
        simp [trigger_plan_review_for_request, h1, h2]
      rw [he] at ha
      exact Or.inl ha
    · by_cases h3 : pyStrip r.id = ""
      · have he : trigger_plan_review_for_request W chat r rsn = W := by
          simp [trigger_plan_review_for_request, h1, h2, h3]
        rw [he] at ha
        exact Or.inl ha
      · unfold trigger_plan_review_for_request at ha
        simp only [h1, h2, h3, Bool.not_true, Bool.false_eq_true, if_false, if_true,
          send_approvals, send_cfg] at ha
        rcases mem_save_approval_elim _ _ _ ha with h4 | h4
        · obtain ⟨ra, -, -, -, -⟩ := runScript_state (send W chat
            (Msg.devPausedPlanReview (pyStrip r.id)))
            ["./scripts/autonomy/plan-review-cycle.sh", "--reason",
             "pending_request:" ++ pyStrip r.id ++ ":" ++ rsn, "--repo",
             W.cfg.planReviewRepo] (some 1200)
          rw [ra, send_approvals] at h4
          exact Or.inl h4
        · right
          rw [h4]
          simp [planReviewStamp]
  · have he : trigger_plan_review_for_request W chat r rsn = W := by
      simp [trigger_plan_review_for_request, h1]
    rw [he] at ha
    exact Or.inl ha

/-- Any approval added by the post-probe watchdog step stores the command
text `/status`. -/
theorem watchdogProcess_command_text (W1 : World) (chat_id : String) (code : Int)
    (out : String) (a : Approval)
    (hfresh : ∀ b ∈ W1.approvals, b.id ≠ "req_" ++ toString W1.nextId)
    (ha : a ∈ (watchdogProcess W1 chat_id code out).approvals) :
    a ∈ W1.approvals ∨ a.command_text = "/status" := by
  simp only [watchdogProcess] at ha
  split at ha
  · split at ha <;> simp only [send_approvals] at ha <;> exact Or.inl ha
  · split at ha
    · exact Or.inl ha
    · split at ha
      · exact Or.inl ha
      · rw [load_after_create W1 chat_id "/status" hfresh] at ha
        simp only [send_approvals] at ha
        rcases mem_trigger_elim _ _ _ _ _ ha with h1 | ⟨hct, -, -, -⟩
        · simp only [send_approvals] at h1
          rcases mem_save_approval_elim _ _ _ h1 with h2 | h2
          · simp only [create_approval] at h2
            rcases List.mem_append.mp h2 with h3 | h3
            · exact Or.inl h3
            · right
              simp at h3
              rw [h3]
              rfl
          · right
            rw [h2]
            rfl
        · right
          rw [hct]
          rfl

/-- `runScript` preserves the approval store. -/
theorem runScript_approvals (W : World) (args : List String) (t : Option Nat) :
    (runScript W args t).2.approvals = W.approvals := (runScript_state W args t).1

/-- `runScript` preserves the id counter. -/
theorem runScript_nextId (W : World) (args : List String) (t : Option Nat) :
    (runScript W args t).2.nextId = W.nextId := (runScript_state W args t).2.1

/-- `runScript` preserves the message log. -/
theorem runScript_msgs (W : World) (args : List String) (t : Option Nat) :
    (runScript W args t).2.msgs = W.msgs := (runScript_state W args t).2.2.1

/-- `runScript` preserves the configuration. -/
theorem runScript_cfg (W : World) (args : List String) (t : Option Nat) :
    (runScript W args t).2.cfg = W.cfg := (runScript_state W args t).2.2.2.1

/-- `runScript` preserves the clock. -/
theorem runScript_now (W : World) (args : List String) (t : Option Nat) :
    (runScript W args t).2.now = W.now := (runScript_state W args t).2.2.2.2

/-- `runScript` preserves the watchdog document. -/
theorem runScript_watchdog (W : World) (args : List String) (t : Option Nat) :
    (runScript W args t).2.watchdog = W.watchdog := by
  unfold runScript popExec
  cases W.exec <;> simp

/-- Any approval created by a watchdog tick stores the command text
`/status` (provided the fresh id does not collide with a stored one). -/
theorem run_watchdog_tick_command_text (W : World) (a : Approval)
    (hfresh : ∀ b ∈ W.approvals, b.id ≠ "req_" ++ toString W.nextId)
    (ha : a ∈ (run_watchdog_tick W).approvals) :
    a ∈ W.approvals ∨ a.command_text = "/status" := by
  simp only [run_watchdog_tick] at ha
  split at ha
  · exact Or.inl ha
  · split at ha
    · exact Or.inl ha
    · rcases watchdogProcess_command_text _ _ _ _ a
        (fun b hb => by
          rw [runScript_approvals] at hb
          rw [runScript_nextId]
          exact hfresh b hb) ha with h | h
      · rw [runScript_approvals] at h
        exact Or.inl h
      · exact Or.inr h

/-- `save_approval` preserves the control document. -/
theorem save_approval_control (W : World) (r : Approval) :
    (save_approval W r).control = W.control := by
  unfold save_approval; split <;> rfl

/-- `save_approval` preserves the oracle queue. -/
theorem save_approval_exec (W : World) (r : Approval) :
    (save_approval W r).exec = W.exec := by
  unfold save_approval; split <;> rfl

/-- `save_approval` preserves the invocation log. -/
theorem save_approval_ran (W : World) (r : Approval) :
    (save_approval W r).ran = W.ran := by
  unfold save_approval; split <;> rfl

/-- `save_approval` preserves the configuration. -/
theorem save_approval_cfg (W : World) (r : Approval) :
    (save_approval W r).cfg = W.cfg := by
  unfold save_approval; split <;> rfl

/-- `save_approval` preserves the clock. -/
theorem save_approval_now (W : World) (r : Approval) :
    (save_approval W r).now = W.now := by
  unfold save_approval; split <;> rfl

/-- `find?` by id after an in-place replacement finds the replacement. -/
theorem find?_map_save (l : List Approval) (r : Approval) (rid : String)
    (hid : r.id = rid) (hex : ∃ b ∈ l, b.id = r.id) :
    (l.map (fun a => if a.id = r.id then r else a)).find? (fun a => a.id = rid) = some r := by
  induction l with
  | nil => simp at hex
  | cons x xs ih =>
    by_cases hx : x.id = r.id
    · simp only [List.map_cons, hx, if_true, List.find?]
      simp [hid]
    · simp only [List.map_cons, hx, if_false, List.find?]
      have hpx : (decide (x.id = rid)) = false := by
        simp [← hid]
        exact hx
      rw [hpx]
      apply ih
      rcases hex with ⟨b, hb, hbid⟩
      rcases List.mem_cons.mp hb with h1 | h1
      · exact absurd (h1 ▸ hbid) hx
      · exact ⟨b, h1, hbid⟩

/-- Loading the id of a just-saved record yields that record. -/
theorem load_save (W : World) (r : Approval) (rid : String) (hid : r.id = rid) :
    load_approval (save_approval W r) rid = some r := by
  unfold load_approval save_approval
  by_cases h : W.approvals.any (fun a => a.id = r.id)
  · simp only [h, if_true]
    obtain ⟨b, hb, hbid⟩ := List.any_eq_true.mp h
    simp at hbid
    exact find?_map_save _ _ _ hid ⟨b, hb, hbid⟩
  · simp only [h, if_false]
    refine find?_append_singleton _ _ _ ?_ hid
    intro b hb
    rw [← hid]
    intro hc
    exact absurd (List.any_eq_true.mpr ⟨b, hb, by simp [hc]⟩) h

/-- `send` preserves the control document. -/
theorem send_control (W : World) (c : String) (m : Msg) : (send W c m).control = W.control := rfl

/-- `load_approval` only reads the approval store. -/
theorem load_eq_of_approvals (W1 W2 : World) (x : String)
    (h : W1.approvals = W2.approvals) : load_approval W1 x = load_approval W2 x := by
  unfold load_approval; rw [h]

/-- Approving a pending record whose stored command is `/status` (with the
latch off and a clean health-check outcome queued) resolves the record to
approved and runs exactly the fleet health probe. -/
theorem status_replay (W : World) (chat text a0 : String) (r : Approval) (fuel : Nat)
    (e : ExtRes) (rest : List ExtRes)
    (hparse : parse_command text = ("/approve", [a0]))
    (hstop : is_emergency_stopped W = false)
    (hload : load_approval W (pyStrip a0) = some r)
    (hown : r.chat_id = chat)
    (hpend : r.status = "pending")
    (hcmd : r.command_text = "/status")
    (hexec : W.exec = e :: rest)
    (hcode : e.code = 0)
    (hnomark : extract_agent_human_request_reason (runCmdCombine e.out "") = none) :
    (handle_command (fuel + 2) W chat text false).ran =
      W.ran ++ [RunSpec.script ["./scripts/autonomy/test-all-agents.sh", "--prompt",
        "한 문장으로 hello"] none] ∧
    load_approval (handle_command (fuel + 2) W chat text false) (pyStrip a0) =
      some { r with
        status := "approved"
        resolved_at := some W.now
        resolved_by_chat_id := some chat } := by
  have hps : pyStrip r.command_text = "/status" := by rw [hcmd]; decide
  have hrid : r.id = pyStrip a0 := by
    unfold load_approval at hload
    have := List.find?_some hload
    simpa using this
  have hstop2 : W.control.emergency_stop = false := hstop
  constructor
  · simp [handle_command, approveCommit, hparse, hstop2, hload, hown, hpend, hps, hexec, hcode, hnomark,
      STOP_COMMANDS, RESUME_COMMANDS, MINIMAL_ALLOWED_COMMANDS, ALLOWED_WHEN_STOPPED,
      DEV_BLOCK_COMMAND_KEYS, send, save_approval_control, save_approval_exec,
      save_approval_ran, is_emergency_stopped, report_result, dispatchExecute,
        statusRun, e2eDispatch,
      maybe_request_human_on_agent_signal, runScript, popExec, requires_approval,
      (by decide : parse_command "/status" = ("/status", ([] : List String))),
      (by decide : command_key "/status" = "status")]
  · have happ : (handle_command (fuel + 2) W chat text false).approvals =
        (save_approval W { r with
          status := "approved"
          resolved_at := some W.now
          resolved_by_chat_id := some chat }).approvals := by
      simp [handle_command, approveCommit, hparse, hstop2, hload, hown, hpend, hps, hexec, hcode, hnomark,
        STOP_COMMANDS, RESUME_COMMANDS, MINIMAL_ALLOWED_COMMANDS, ALLOWED_WHEN_STOPPED,
        DEV_BLOCK_COMMAND_KEYS, send, save_approval_control, save_approval_exec,
        save_approval_ran, is_emergency_stopped, report_result, dispatchExecute,
        statusRun, e2eDispatch,
        maybe_request_human_on_agent_signal, runScript, popExec, requires_approval,
        (by decide : parse_command "/status" = ("/status", ([] : List String))),
        (by decide : command_key "/status" = "status")]
    rw [load_eq_of_approvals _ _ _ happ]
    refine load_save _ _ _ ?_
    exact hrid

/-- **C10.**  Every approval record created by the watchdog stores the
literal command text `/status`, and approving a pending record whose
command text is `/status` replays exactly the fleet health probe - so
operator approval of a watchdog-originated request replays the `/status`
health check rather than any other command. -/
theorem watchdog_approvals_replay_status :
    (∀ (W : World) (a : Approval),
        (∀ b ∈ W.approvals, b.id ≠ "req_" ++ toString W.nextId) →
        a ∈ (run_watchdog_tick W).approvals →
        a ∈ W.approvals ∨ a.command_text = "/status") ∧
    (∀ (W : World) (chat text a0 : String) (r : Approval) (fuel : Nat)
        (e : ExtRes) (rest : List ExtRes),
        parse_command text = ("/approve", [a0]) →
        is_emergency_stopped W = false →
        load_approval W (pyStrip a0) = some r →
        r.chat_id = chat →
        r.status = "pending" →
        r.command_text = "/status" →
        W.exec = e :: rest →
        e.code = 0 →
        extract_agent_human_request_reason (runCmdCombine e.out "") = none →
        (handle_command (fuel + 2) W chat text false).ran =
          W.ran ++ [RunSpec.script ["./scripts/autonomy/test-all-agents.sh", "--prompt",
            "한 문장으로 hello"] none] ∧
        load_approval (handle_command (fuel + 2) W chat text false) (pyStrip a0) =
          some { r with
            status := "approved"
            resolved_at := some W.now
            resolved_by_chat_id := some chat }) :=
  ⟨run_watchdog_tick_command_text,
   fun W chat text a0 r fuel e rest h1 h2 h3 h4 h5 h6 h7 h8 h9 =>
     status_replay W chat text a0 r fuel e rest h1 h2 h3 h4 h5 h6 h7 h8 h9⟩

/-- A world whose queued health probe fails with a plain error output. -/
def failingProbeWorld : World := { baseWorld with exec := [⟨1, "boom failure", none⟩] }

/-- Witness for C10: a failing watchdog tick creates an approval whose
command text is `/status`, and approving `pendingApproval` (stored command
`/status`) runs the health probe. -/
theorem watchdog_approvals_replay_status_witness :
    ((run_watchdog_tick failingProbeWorld).approvals.map
        (fun a => (a.command_text, a.reason)) =
      [("/status", some "watchdog_agent_watchdog_failed")]) ∧
    (((run_watchdog_tick failingProbeWorld).approvals.headD (mkApproval 0 0 "" ""))
        ∈ failingProbeWorld.approvals ∨
      ((run_watchdog_tick failingProbeWorld).approvals.headD
        (mkApproval 0 0 "" "")).command_text = "/status") ∧
    ((handle_command 2 { pendingWorld with exec := [⟨0, "all good", none⟩] }
        "111" "/approve req_0" false).ran =
      pendingWorld.ran ++ [RunSpec.script ["./scripts/autonomy/test-all-agents.sh",
        "--prompt", "한 문장으로 hello"] none]) :=
  ⟨by decide,
    watchdog_approvals_replay_status.1 failingProbeWorld
      ((run_watchdog_tick failingProbeWorld).approvals.headD (mkApproval 0 0 "" ""))
      (by decide) (by decide),
    (watchdog_approvals_replay_status.2 { pendingWorld with exec := [⟨0, "all good", none⟩] }
      "111" "/approve req_0" "req_0" pendingApproval 0 ⟨0, "all good", none⟩ []
      (by decide) (by decide) (by decide) (by decide) (by decide) (by decide) rfl
      (by decide) (by decide)).1⟩

/-- Debounce condition of the watchdog failure path: an active alert with
matching fingerprint inside the cooldown. -/
def watchdogDebounce (W1 : World) (out : String) : Bool :=
  W1.watchdog.alert_active && W1.watchdog.last_failure_hash = watchdogFingerprint out &&
    W1.now - W1.watchdog.last_alert_at < W1.cfg.watchdogAlertCooldownSeconds

/-- Debounce: within the cooldown with a matching fingerprint, a failing
tick only refreshes `last_seen_at`. -/
theorem watchdogProcess_debounce (W1 : World) (chat : String) (code : Int) (out : String)
    (hcode : code ≠ 0) (hdeb : watchdogDebounce W1 out = true) :
    watchdogProcess W1 chat code out =
      { W1 with watchdog := { W1.watchdog with last_seen_at := some W1.now } } := by
  unfold watchdogProcess
  unfold watchdogDebounce at hdeb
  simp [hcode, hdeb]

/-- Pending suppression: with a watchdog approval still pending, a failing
tick only refreshes the state record (fingerprint, times, reason). -/
theorem watchdogProcess_pending_suppress (W1 : World) (chat : String) (code : Int)
    (out : String) (hcode : code ≠ 0) (hdeb : watchdogDebounce W1 out = false)
    (hpend : has_pending_watchdog_request W1 chat = true) :
    watchdogProcess W1 chat code out =
      { W1 with watchdog := { W1.watchdog with
        alert_active := true
        last_alert_at := W1.now
        last_failure_hash := watchdogFingerprint out
        last_reason := some ("watchdog_" ++
          ((detect_human_blocker out).getD "agent_watchdog_failed"))
        last_seen_at := some W1.now } } := by
  unfold watchdogProcess
  unfold watchdogDebounce at hdeb
  simp [hcode, hdeb, hpend]

/-- Creation: a failing tick that is neither debounced nor suppressed
creates exactly one fresh `/status` approval with a `watchdog_`-prefixed
reason and arms the alert state. -/
theorem watchdogProcess_creates (W1 : World) (chat : String) (code : Int) (out : String)
    (hcode : code ≠ 0) (hdeb : watchdogDebounce W1 out = false)
    (hpend : has_pending_watchdog_request W1 chat = false)
    (hfresh : ∀ b ∈ W1.approvals, b.id ≠ "req_" ++ toString W1.nextId) :
    (∃ a ∈ (watchdogProcess W1 chat code out).approvals,
      a.command_text = "/status" ∧
      a.reason = some ("watchdog_" ++
        ((detect_human_blocker out).getD "agent_watchdog_failed")) ∧
      a.id = "req_" ++ toString W1.nextId ∧ a.status = "pending") ∧
    (∀ a ∈ (watchdogProcess W1 chat code out).approvals,
      a.id = "req_" ++ toString W1.nextId ∨ ∃ b ∈ W1.approvals, b.id = a.id) ∧
    (watchdogProcess W1 chat code out).watchdog.alert_active = true ∧
    (watchdogProcess W1 chat code out).watchdog.last_failure_hash =
      watchdogFingerprint out ∧
    (watchdogProcess W1 chat code out).watchdog.last_alert_at = W1.now := by
  unfold watchdogProcess
  unfold watchdogDebounce at hdeb
  simp only [hcode, hdeb, hpend, Bool.false_eq_true, if_false, if_true, ite_false,
    ite_true, if_neg, reduceIte]
  rw [load_after_create W1 chat "/status" hfresh]
  refine ⟨?_, ?_, by simp, by simp, by simp⟩
  · refine exists_after_trigger _ _ _ _ _ _ ?_
    intro a h1 h2 h3 h4
    exact ⟨h3.trans rfl, h1.trans rfl, h2.trans rfl, h4.trans rfl⟩
  · intro a ha
    simp only [send_approvals] at ha
    rcases mem_trigger_elim _ _ _ _ _ ha with h1 | ⟨-, -, hid, -⟩
    · simp only [send_approvals] at h1
      rcases mem_save_approval_elim _ _ _ h1 with h2 | h2
      · simp only [create_approval] at h2
        rcases List.mem_append.mp h2 with h3 | h3
        · exact Or.inr ⟨a, h3, rfl⟩
        · simp at h3
          rw [h3]
          exact Or.inl rfl
      · rw [h2]
        exact Or.inl rfl
    · rw [hid]
      exact Or.inl rfl

/-- World after one failing tick (output `boom failure`) from the clean
fixture. -/
def wdTick1 : World := run_watchdog_tick { baseWorld with exec := [⟨1, "boom failure", none⟩] }

/-- World after a second failing tick with the identical output, 100 s
later (inside the 600 s cooldown). -/
def wdTick2 : World := run_watchdog_tick { wdTick1 with exec := [⟨1, "boom failure", none⟩], now := 1100 }

/-- World after a third failing tick with a different output, again inside
the cooldown, while the first approval is still pending. -/
def wdTick3 : World := run_watchdog_tick { wdTick2 with exec := [⟨1, "other failure", none⟩], now := 1200 }

/-- `wdTick2` with its watchdog approval rejected by the operator. -/
def wdTick2Resolved : World := handle_command 1 wdTick2 "111" "/reject req_0" false

/-- World after the different-output failing tick once the first approval
has been resolved. -/
def wdTick3Resolved : World :=
  run_watchdog_tick { wdTick2Resolved with exec := [⟨1, "other failure", none⟩], now := 1200 }

/-- **C7 (counterexample).**  The claim - a failed tick after the
deduplicated pair, carrying *different* normalized output, produces a
second approval - fails on the code: while the first watchdog approval is
still pending, the third tick (different output, different fingerprint)
creates no second approval; it only refreshes the watchdog state record. -/
theorem watchdog_dedup_counterexample :
    wdTick1.approvals.length = 1 ∧
    wdTick2.approvals.length = 1 ∧
    watchdogFingerprint "other failure" ≠ watchdogFingerprint "boom failure" ∧
    wdTick3.approvals.length = 1 ∧
    wdTick3.watchdog.last_failure_hash = watchdogFingerprint "other failure" := by
  refine ⟨by decide, by decide, by decide, by decide, by decide⟩

/-- **C7 (amended).**  Watchdog deduplication: on a failing tick (i) within
the cooldown with an identical fingerprint the tick is debounced and only
`last_seen_at` is refreshed; (ii) otherwise, while a watchdog approval is
still pending on the chat, no new approval is created and only the state
record is refreshed (new fingerprint, times and reason); (iii) otherwise
exactly one fresh `/status` approval with a `watchdog_`-prefixed reason is
created and the alert state armed.  Hence two consecutive failed ticks
with identical normalized output within the cooldown produce exactly one
approval, and a later failed tick with different output produces a second
approval only once no watchdog approval is pending any more - as the
concrete resolved-scenario conjunct shows. -/
theorem watchdog_dedup (W1 : World) (chat : String) (code : Int) (out : String)
    (hcode : code ≠ 0) :
    (watchdogDebounce W1 out = true →
      watchdogProcess W1 chat code out =
        { W1 with watchdog := { W1.watchdog with last_seen_at := some W1.now } }) ∧
    (watchdogDebounce W1 out = false → has_pending_watchdog_request W1 chat = true →
      watchdogProcess W1 chat code out =
        { W1 with watchdog := { W1.watchdog with
          alert_active := true
          last_alert_at := W1.now
          last_failure_hash := watchdogFingerprint out
          last_reason := some ("watchdog_" ++
            ((detect_human_blocker out).getD "agent_watchdog_failed"))
          last_seen_at := some W1.now } }) ∧
    (watchdogDebounce W1 out = false → has_pending_watchdog_request W1 chat = false →
      (∀ b ∈ W1.approvals, b.id ≠ "req_" ++ toString W1.nextId) →
      (∃ a ∈ (watchdogProcess W1 chat code out).approvals,
        a.command_text = "/status" ∧
        a.reason = some ("watchdog_" ++
          ((detect_human_blocker out).getD "agent_watchdog_failed")) ∧
        a.id = "req_" ++ toString W1.nextId ∧ a.status = "pending") ∧
      (∀ a ∈ (watchdogProcess W1 chat code out).approvals,
        a.id = "req_" ++ toString W1.nextId ∨ ∃ b ∈ W1.approvals, b.id = a.id) ∧
      (watchdogProcess W1 chat code out).watchdog.alert_active = true ∧
      (watchdogProcess W1 chat code out).watchdog.last_failure_hash =
        watchdogFingerprint out ∧
      (watchdogProcess W1 chat code out).watchdog.last_alert_at = W1.now) ∧
    (wdTick2.approvals.length = 1 ∧
      wdTick2Resolved.approvals.length = 1 ∧
      wdTick3Resolved.approvals.length = 2) :=
  ⟨watchdogProcess_debounce W1 chat code out hcode,
   watchdogProcess_pending_suppress W1 chat code out hcode,
   watchdogProcess_creates W1 chat code out hcode,
   by decide, by decide, by decide⟩

/-- Witness for the amended C7 at a concrete failing tick: the clean
fixture is neither debounced nor pending-suppressed, so the creation case
applies. -/
theorem watchdog_dedup_witness :
    (1 : Int) ≠ 0 ∧
    watchdogDebounce baseWorld "boom failure" = false ∧
    has_pending_watchdog_request baseWorld "111" = false ∧
    (∃ a ∈ (watchdogProcess baseWorld "111" 1 "boom failure").approvals,
      a.command_text = "/status" ∧
      a.reason = some ("watchdog_" ++
        ((detect_human_blocker "boom failure").getD "agent_watchdog_failed")) ∧
      a.id = "req_" ++ toString baseWorld.nextId ∧ a.status = "pending") :=
  ⟨by decide, by decide, by decide,
    ((watchdog_dedup baseWorld "111" 1 "boom failure" (by decide)).2.2.1
      (by decide) (by decide) (by decide)).1⟩

/-! ## Pre-execution-approval provenance (replay idempotency) -/

/-- A step whose approval store is unchanged creates no pre-execution
approval. -/
theorem preOk_of_eq (W Wf : World) (h : Wf.approvals = W.approvals) : preOk W Wf :=
  fun a ha hr => ⟨a, by rw [← h]; exact ha, rfl, hr⟩

/-- `preOk` is reflexive. -/
theorem preOk_refl (W : World) : preOk W W := preOk_of_eq W W rfl

/-- `preOk` composes. -/
theorem preOk_trans (W W1 W2 : World) (h1 : preOk W W1) (h2 : preOk W1 W2) :
    preOk W W2 := by
  intro a ha hr
  obtain ⟨b, hb, hbid, hbr⟩ := h2 a ha hr
  obtain ⟨c, hc, hcid, hcr⟩ := h1 b hb hbr
  exact ⟨c, hc, hcid.trans hbid, hcr⟩

/-- `create_approval` creates no pre-execution approval (the fresh record
has no reason). -/
theorem preOk_create (W : World) (c t : String) : preOk W (create_approval W c t).2 := by
  intro a ha hr
  simp only [create_approval] at ha
  rcases List.mem_append.mp ha with h | h
  · exact ⟨a, h, rfl, hr⟩
  · simp at h
    rw [h] at hr
    simp [mkApproval] at hr

/-- `save_approval` creates no pre-execution approval provided the saved
record, when pre-tagged, descends from a stored pre-tagged record. -/
theorem preOk_save (W : World) (r : Approval)
    (h : r.reason = some "pre_execution_approval_required" →
      ∃ b ∈ W.approvals, b.id = r.id ∧
        b.reason = some "pre_execution_approval_required") :
    preOk W (save_approval W r) := by
  intro a ha hr
  rcases mem_save_approval_elim _ _ _ ha with h1 | h1
  · exact ⟨a, h1, rfl, hr⟩
  · rw [h1] at hr ⊢
    exact h hr

/-- The plan-review trigger creates no pre-execution approval when its
request argument is stored. -/
theorem preOk_trigger (W : World) (chat rsn : String) (req : Approval)
    (hmem : req ∈ W.approvals) :
    preOk W (trigger_plan_review_for_request W chat req rsn) := by
  intro a ha hr
  rcases mem_trigger_elim _ _ _ _ _ ha with h1 | ⟨-, hrs, hid, -⟩
  · exact ⟨a, h1, rfl, hr⟩
  · rw [hrs] at hr
    exact ⟨req, hmem, hid.symm, hr⟩

/-- `send` creates no pre-execution approval. -/
theorem preOk_send (W : World) (c : String) (m : Msg) : preOk W (send W c m) :=
  preOk_of_eq _ _ (send_approvals W c m)

/-- `runScript` creates no pre-execution approval. -/
theorem preOk_runScript (W : World) (args : List String) (t : Option Nat) :
    preOk W (runScript W args t).2 :=
  preOk_of_eq _ _ (runScript_approvals W args t)

/-- No blocker tag is the pre-execution tag. -/
theorem detect_ne_pre (t x : String) (h : detect_human_blocker t = some x) :
    x ≠ "pre_execution_approval_required" := by
  simp only [detect_human_blocker] at h
  rcases hf : blockerPatterns.find? (fun pr => pr.1.any (fun p => patMatch (pyLower t) p))
    with _ | pr
  · rw [hf] at h; simp at h
  · rw [hf] at h
    simp at h
    have hmem := List.mem_of_find?_eq_some hf
    simp only [blockerPatterns, List.mem_cons, List.mem_singleton] at hmem
    rcases hmem with h1 | h1 | h1 | h1 | h1 | h1 | h1 | h1 | h1 | h1 <;>
      first
        | (rw [h1] at h; rw [← h]; decide)
        | simp at h1

/-- The save-announce-trigger tail shared by the auto-created approvals:
it creates no pre-execution approval when the saved record is not
pre-tagged. -/
theorem preOk_save_send_trigger (W W3 : World) (c rsn : String) (m : Msg) (R : Approval)
    (hW3 : preOk W W3)
    (hR : R.reason ≠ some "pre_execution_approval_required") :
    preOk W (trigger_plan_review_for_request (send (save_approval W3 R) c m) c R rsn) := by
  have s2 : preOk W (save_approval W3 R) :=
    preOk_trans _ _ _ hW3 (preOk_save _ _ (fun hr => absurd hr hR))
  have s3 : preOk W (send (save_approval W3 R) c m) :=
    preOk_trans _ _ _ s2 (preOk_send _ _ _)
  exact preOk_trans _ _ _ s3 (preOk_trigger _ _ _ _
    (by rw [send_approvals]; exact mem_save_approval _ _))

/-- The consensus-request creation tail creates no pre-execution
approval. -/
theorem preOk_signalCreateRequest (W9 : World) (c t d crid cart : String) (cyes : Nat) :
    preOk W9 (signalCreateRequest W9 c t d crid cart cyes).2 := by
  simp only [signalCreateRequest]
  split
  · exact preOk_create _ _ _
  · exact preOk_save_send_trigger _ _ _ _ _ _ (preOk_create _ _ _)
      (by rw [consensusRequestStamp_reason]; decide)

/-- The agent-signal inspector creates no pre-execution approval. -/
theorem preOk_maybe_signal (W : World) (c t o : String) :
    preOk W (maybe_request_human_on_agent_signal W c t o).2 := by
  simp only [maybe_request_human_on_agent_signal]
  split
  · exact preOk_refl W
  · split
    · exact preOk_refl W
    · split
      · split
        · split
          · exact preOk_trans _ _ _
              (preOk_trans _ _ _ (preOk_send _ _ _)
                (preOk_of_eq _ _ (run_agent_consensus_state _ _ _ _).1))
              (preOk_create _ _ _)
          · exact preOk_save_send_trigger _ _ _ _ _ _
              (preOk_trans _ _ _
                (preOk_trans _ _ _ (preOk_send _ _ _)
                  (preOk_of_eq _ _ (run_agent_consensus_state _ _ _ _).1))
                (preOk_create _ _ _))
              (by intro h; simp at h)
        · split
          · exact preOk_trans _ _ _ (preOk_send _ _ _)
              (preOk_trans _ _ _
                (preOk_of_eq _ _ (run_agent_consensus_state _ _ _ _).1)
                (preOk_send _ _ _))
          · exact preOk_trans _ _ _
              (preOk_trans _ _ _ (preOk_send _ _ _)
                (preOk_of_eq _ _ (run_agent_consensus_state _ _ _ _).1))
              (preOk_signalCreateRequest _ _ _ _ _ _ _)
      · exact preOk_signalCreateRequest _ _ _ _ _ _ _

/-- The blocker inspector creates no pre-execution approval (every blocker
tag differs from the pre-execution tag). -/
theorem preOk_maybe_blocker (W : World) (c t o : String) :
    preOk W (maybe_request_human_on_blocker W c t o).2 := by
  simp only [maybe_request_human_on_blocker]
  split
  · exact preOk_refl W
  · split
    · exact preOk_refl W
    · rename_i reason heq
      split
      · exact preOk_create _ _ _
      · exact preOk_save_send_trigger _ _ _ _ _ _ (preOk_create _ _ _)
          (fun h => detect_ne_pre _ _ heq (Option.some.inj h))

/-- `report_result` creates no pre-execution approval. -/
theorem preOk_report_result (W : World) (c lbl : String) (code : Int) (out t : String) :
    preOk W (report_result W c lbl code out t) := by
  simp only [report_result]
  split
  · split
    · exact preOk_trans _ _ _
        (preOk_trans _ _ _ (preOk_send _ _ _) (preOk_maybe_signal _ _ _ _))
        (preOk_maybe_blocker _ _ _ _)
    · exact preOk_trans _ _ _ (preOk_send _ _ _) (preOk_maybe_signal _ _ _ _)
  · exact preOk_trans _ _ _ (preOk_send _ _ _) (preOk_maybe_signal _ _ _ _)

/-- The announce-run-report execution tail creates no pre-execution
approval. -/
theorem preOk_send_run_report (W : World) (c : String) (m : Msg) (args : List String)
    (tmo : Option Nat) (lbl t : String) :
    preOk W (report_result (runScript (send W c m) args tmo).2 c lbl
      (runScript (send W c m) args tmo).1.1 (runScript (send W c m) args tmo).1.2 t) :=
  preOk_trans _ _ _
    (preOk_of_eq _ _ (by rw [runScript_approvals, send_approvals]))
    (preOk_report_result _ _ _ _ _ _)

/-- The `/ask` tail creates no pre-execution approval. -/
theorem preOk_askRun (W : World) (c t agent prompt : String) :
    preOk W (askRun W c t agent prompt) := by
  unfold askRun
  exact preOk_send_run_report _ _ _ _ _ _ _

/-- The `/commit` tail creates no pre-execution approval. -/
theorem preOk_commitRun (W : World) (c t agent task : String) :
    preOk W (commitRun W c t agent task) := by
  simp only [commitRun]
  split
  · exact preOk_send _ _ _
  · exact preOk_send_run_report _ _ _ _ _ _ _

/-- The `/pr` tail creates no pre-execution approval. -/
theorem preOk_prRun (W : World) (c t agent base title : String) :
    preOk W (prRun W c t agent base title) := by
  unfold prRun
  exact preOk_send_run_report _ _ _ _ _ _ _

/-- The `/status` tail creates no pre-execution approval. -/
theorem preOk_statusRun (W : World) (c t : String) :
    preOk W (statusRun W c t) := by
  unfold statusRun
  exact preOk_send_run_report _ _ _ _ _ _ _

/-- The `/e2e` tail creates no pre-execution approval. -/
theorem preOk_e2eDispatch (W : World) (c t cmd : String) (args : List String) :
    preOk W (e2eDispatch W c t cmd args) := by
  simp only [e2eDispatch]
  repeat' split
  all_goals
    first
    | exact preOk_send _ _ _
    | exact preOk_send_run_report _ _ _ _ _ _ _

set_option maxHeartbeats 1000000 in
/-- The execution phase creates no pre-execution approval. -/
theorem preOk_dispatchExecute (W : World) (c t cmd : String) (args : List String) :
    preOk W (dispatchExecute W c t cmd args) := by
  simp only [dispatchExecute]
  repeat' split
  all_goals
    first
    | exact preOk_send _ _ _
    | exact preOk_statusRun _ _ _
    | exact preOk_e2eDispatch _ _ _ _ _
    | exact preOk_askRun _ _ _ _ _
    | exact preOk_commitRun _ _ _ _ _
    | exact preOk_prRun _ _ _ _ _ _

/-- The `/plan_review` tail creates no pre-execution approval. -/
theorem preOk_planReviewRun (W : World) (c t : String) :
    preOk W (planReviewRun W c t) := by
  unfold planReviewRun
  exact preOk_send_run_report _ _ _ _ _ _ _

/-- The `/pending` tail creates no pre-execution approval. -/
theorem preOk_pendingListRun (W : World) (c : String) :
    preOk W (pendingListRun W c) := by
  simp only [pendingListRun]
  split
  · exact preOk_send _ _ _
  · exact preOk_send _ _ _

/-- The `/reject` branch creates no pre-execution approval: it only
replies or resolves a stored record. -/
theorem preOk_rejectRun (W : World) (c : String) (args : List String) :
    preOk W (rejectRun W c args) := by
  simp only [rejectRun]
  split
  · split
    · exact preOk_send _ _ _
    · rename_i r heq
      split
      · exact preOk_send _ _ _
      · split
        · exact preOk_send _ _ _
        · refine preOk_trans _ _ _ (preOk_save _ _ ?_) (preOk_send _ _ _)
          intro hr
          exact ⟨r, List.mem_of_find?_eq_some heq, rfl, hr⟩
  · exact preOk_send _ _ _

/-- Committing an approval creates no pre-execution approval: the saved
record descends from the loaded one. -/
theorem preOk_approveCommit (W : World) (c rid : String) (req : Approval)
    (hmem : req ∈ W.approvals) :
    preOk W (approveCommit W c rid req) := by
  unfold approveCommit
  refine preOk_trans _ _ _ (preOk_save _ _ ?_) (preOk_send _ _ _)
  intro hr
  exact ⟨req, hmem, rfl, hr⟩

set_option maxHeartbeats 1000000 in
/-- The dispatcher run with `bypass_approval` set creates no pre-execution
approval, at any fuel: the pre-execution creation branch is disabled by the
bypass flag, every other branch only replies, resolves stored records or
runs the execution phase. -/
theorem handle_preOk (fuel : Nat) : ∀ (W : World) (c t : String),
    preOk W (handle_command fuel W c t true) := by
  induction fuel with
  | zero => intro W c t; exact preOk_refl W
  | succ n ih =>
    intro W c t
    simp only [handle_command]
    simp only [Bool.not_true, Bool.and_false, Bool.false_eq_true, if_false]
    by_cases h1 : (parse_command t).1 = ""
    · rw [if_pos h1]; exact preOk_refl W
    · rw [if_neg h1]
      by_cases h2 : (decide ((parse_command t).1 = "/start") ||
          decide ((parse_command t).1 = "/help")) = true
      · rw [if_pos h2]; exact preOk_send _ _ _
      · rw [if_neg h2]
        by_cases h3 : (parse_command t).1 ∈ STOP_COMMANDS
        · rw [if_pos h3]; exact preOk_of_eq _ _ rfl
        · rw [if_neg h3]
          by_cases h4 : (parse_command t).1 ∈ RESUME_COMMANDS
          · rw [if_pos h4]; exact preOk_of_eq _ _ rfl
          · rw [if_neg h4]
            by_cases h5 : (W.cfg.minimalCommandMode &&
                decide ((parse_command t).1 ∉ MINIMAL_ALLOWED_COMMANDS)) = true
            · rw [if_pos h5]; exact preOk_send _ _ _
            · rw [if_neg h5]
              by_cases h6 : (is_emergency_stopped W &&
                  decide ((parse_command t).1 ∉ ALLOWED_WHEN_STOPPED)) = true
              · rw [if_pos h6]; exact preOk_send _ _ _
              · rw [if_neg h6]
                by_cases h7 : (parse_command t).1 = "/plan_review"
                · rw [if_pos h7]; exact preOk_planReviewRun _ _ _
                · rw [if_neg h7]
                  by_cases h8 : (parse_command t).1 = "/pending"
                  · rw [if_pos h8]; exact preOk_pendingListRun _ _
                  · rw [if_neg h8]
                    by_cases h9 : (parse_command t).1 = "/reject"
                    · rw [if_pos h9]; exact preOk_rejectRun _ _ _
                    · rw [if_neg h9]
                      by_cases ha : (parse_command t).1 = "/approve"
                      · rw [if_pos ha]
                        repeat' split
                        all_goals
                          first
                          | exact preOk_send _ _ _
                          | (rename_i req heq hc hs
                             exact preOk_trans _ _ _
                               (preOk_approveCommit _ _ _ _
                                 (List.mem_of_find?_eq_some heq))
                               (ih _ _ _))
                      · rw [if_neg ha]
                        exact preOk_dispatchExecute _ _ _ _ _

/-- **C8.**  Replay idempotency: approving a pending
`pre_execution_approval_required` request marks it approved and re-enters
the dispatcher with the stored command text and the bypass flag set, and
the replay creates no new `pre_execution_approval_required` record - every
pre-tagged record of the resulting store already existed, with the same id
and the same tag, before the `/approve`. -/
theorem replay_no_second_preapproval (W : World) (chat text a0 : String)
    (r : Approval) (fuel : Nat)
    (hparse : parse_command text = ("/approve", [a0]))
    (hstop : is_emergency_stopped W = false)
    (hload : load_approval W (pyStrip a0) = some r)
    (hown : r.chat_id = chat)
    (hpend : r.status = "pending")
    (hpre : r.reason = some "pre_execution_approval_required") :
    handle_command (fuel + 1) W chat text false =
      handle_command fuel (approveCommit W chat (pyStrip a0) r) chat
        (pyStrip r.command_text) true ∧
    ∀ a ∈ (handle_command (fuel + 1) W chat text false).approvals,
      a.reason = some "pre_execution_approval_required" →
        ∃ b ∈ W.approvals, b.id = a.id ∧
          b.reason = some "pre_execution_approval_required" := by
  have h1 : handle_command (fuel + 1) W chat text false =
      handle_command fuel (approveCommit W chat (pyStrip a0) r) chat
        (pyStrip r.command_text) true := by
    simp [handle_command, hparse, hload, hown, hpend, hstop, STOP_COMMANDS,
      RESUME_COMMANDS, MINIMAL_ALLOWED_COMMANDS, ALLOWED_WHEN_STOPPED]
  refine ⟨h1, ?_⟩
  rw [h1]
  exact preOk_trans _ _ _
    (preOk_approveCommit _ _ _ _ (List.mem_of_find?_eq_some hload))
    (handle_preOk fuel _ chat (pyStrip r.command_text))

/-- Witness for C8: approving the stored pre-execution request for
`/status` replays `/status` with bypass, and every pre-tagged record of the
final store is the original one. -/
theorem replay_no_second_preapproval_witness :
    parse_command "/approve req_0" = ("/approve", ["req_0"]) ∧
    preApproval.reason = some "pre_execution_approval_required" ∧
    (handle_command 2 preWorld "111" "/approve req_0" false =
      handle_command 1 (approveCommit preWorld "111" (pyStrip "req_0") preApproval)
        "111" (pyStrip preApproval.command_text) true) ∧
    ∀ a ∈ (handle_command 2 preWorld "111" "/approve req_0" false).approvals,
      a.reason = some "pre_execution_approval_required" →
        ∃ b ∈ preWorld.approvals, b.id = a.id ∧
          b.reason = some "pre_execution_approval_required" :=
  ⟨by decide, by decide,
    (replay_no_second_preapproval preWorld "111" "/approve req_0" "req_0" preApproval 1
      (by decide) (by decide) (by decide) (by decide) (by decide) (by decide)).1,
    (replay_no_second_preapproval preWorld "111" "/approve req_0" "req_0" preApproval 1
      (by decide) (by decide) (by decide) (by decide) (by decide) (by decide)).2⟩
